import Mathlib

/-!
Verification of the ENOR VATSIM runway selector against its specification.

The development shallowly embeds the Rust sources of the repository:
`es_runway_selector` (runway data model, per-airport selection policies,
selection merge and the runway-file writer) and `metar_decoder` (the nom-based
METAR grammar decoder).  Rust `f64` trigonometry is modelled over `ℝ`,
machine integers over `ℕ`/`ℤ`, fallible code over `Option`/`Except`, and the
nom parser combinators over an explicit `List Char → Option (List Char × α)`
parser type whose combinators mirror nom's (complete input) semantics.
-/

namespace ENOR

/-- Usage of a runway, from `es_runway_selector/src/runway.rs`. -/
inductive RunwayUse where
  | Departing
  | Arriving
  | Both
  deriving DecidableEq, Repr, Fintype

namespace RunwayUse

/-- Merge of two usages for the same runway,
`RunwayUse::merged_with` in `runway.rs`. -/
def merged_with (self other : RunwayUse) : RunwayUse :=
  match self, other with
  | .Both, _ => .Both
  | _, .Both => .Both
  | .Arriving, .Departing => .Both
  | .Departing, .Arriving => .Both
  | existing, _ => existing

/-- Directional flags written to the runway file for one usage,
`RunwayUse::active_runway_flags` in `runway.rs`. -/
def active_runway_flags (self : RunwayUse) : List ℕ :=
  match self with
  | .Departing => [1]
  | .Arriving => [0]
  | .Both => [1, 0]

end RunwayUse

/-- One runway end, `RunwayDirection` in `runway.rs`: identifier string and
true heading in degrees. -/
structure RunwayDirection where
  degrees : ℕ
  identifier : String
  deriving DecidableEq, Repr

/-- A physical runway: a pair of opposite directions, `Runway` in
`runway.rs` (`runways: [RunwayDirection; 2]`). -/
structure Runway where
  dir0 : RunwayDirection
  dir1 : RunwayDirection
  deriving DecidableEq, Repr

/-- The two directions of a runway as a list, matching iteration over the
Rust fixed-size array `runways`. -/
def Runway.dirs (r : Runway) : List RunwayDirection := [r.dir0, r.dir1]

/-- Shortest-arc angular difference, `diff_angle` in
`runways/src/util.rs` (same function used by `es_runway_selector`). -/
def diff_angle (a b : ℕ) : ℕ :=
  let diff : ℤ := ((a : ℤ) - (b : ℤ)).natAbs
  if diff > 180 then (360 - diff).toNat else diff.toNat

/-- Three-state field value from `metar_decoder`'s `optional_data` module
(the module itself is not under `src/`; its two constructors and `to_option`
are fixed by their uses in `airport.rs`, `obscuration.rs` and the decoder
tests).  The Rust const generic `N` (the slash count) only matters for
parsing and is passed to the parser combinator separately. -/
inductive OptionalData (α : Type) where
  | Data (a : α)
  | Undefined
  deriving DecidableEq, Repr

/-- Conversion used as `.to_option()` in the Rust sources. -/
def OptionalData.to_option {α : Type} : OptionalData α → Option α
  | .Data a => some a
  | .Undefined => none

/-- A reported track (three-digit heading), `Track(OptionalData<u32, 3>)`
from the decoder's `units::track` module (shape fixed by its uses). -/
structure Track where
  val : OptionalData ℕ
  deriving DecidableEq, Repr

/-- Velocity unit of a wind group (`KT` or `MPS`), from the decoder's
`units::velocity` module (shape fixed by its uses). -/
inductive VelocityUnit where
  | Knots
  | MetersPerSecond
  deriving DecidableEq, Repr

/-- Reported wind speed with optional gust, `WindVelocity` from the
decoder's `units::velocity` module (field shape fixed by the tests in
`runways/src/metar.rs`). -/
structure WindVelocity where
  velocity : OptionalData ℕ
  gust : Option (OptionalData ℕ)
  unit : VelocityUnit
  deriving DecidableEq, Repr

/-- Modelled from the spec: `WindVelocity::get_max_wind_speed` (the decoder's
wind/velocity module is absent from `src/`).  Per §4.2 the function yields the
reported maximum (gust-inclusive) wind speed, and no result when the speed
field itself is undefined. -/
def WindVelocity.get_max_wind_speed (v : WindVelocity) : Option ℕ :=
  match v.velocity with
  | .Undefined => none
  | .Data s =>
      some (match v.gust with
            | some (.Data g) => max s g
            | _ => s)

/-- Wind direction: a (possibly undefined) heading or fully variable
(`VRB`), `WindDirection` from the decoder's `wind` module (shape fixed by
its uses in `airport.rs`). -/
inductive WindDirection where
  | Heading (t : Track)
  | Variable
  deriving DecidableEq, Repr

/-- A decoded wind group, `Wind` from the decoder's `wind` module (shape
fixed by its uses: fields `dir`, `speed`, `varying`). -/
structure Wind where
  dir : WindDirection
  speed : WindVelocity
  varying : Option (Track × Track)
  deriving DecidableEq, Repr

/-- Crosswind side, `CrosswindDirection` in `airport.rs`. -/
inductive CrosswindDirection where
  | Left
  | Right
  | Variable
  deriving DecidableEq, Repr

/-- Degrees to radians, Rust's `f64::to_radians`. -/
noncomputable def deg2rad (x : ℝ) : ℝ := x * Real.pi / 180

/-- Signed crosswind projection factor,
`Airport::signed_crosswind_component_factor` in `airport.rs`:
`(((wind_dir - track + 540) % 360) - 180)` degrees (Rust truncating `%`,
i.e. `Int.tmod`), then `sin`. -/
noncomputable def signed_crosswind_component_factor (track wind_dir : ℕ) : ℝ :=
  Real.sin (deg2rad ((((wind_dir : ℤ) - (track : ℤ) + 540).tmod 360 - 180 : ℤ) : ℝ))

/-- Rust `f64::signum` restricted to non-NaN values: `1.0` for positive or
positive zero, `-1.0` for negative. -/
noncomputable def rust_signum (x : ℝ) : ℝ := if 0 ≤ x then 1 else -1

/-- Side from a signed factor,
`Airport::crosswind_direction_from_signed_factor` in `airport.rs`
(epsilon `1e-9`). -/
noncomputable def crosswind_direction_from_signed_factor (f : ℝ) : CrosswindDirection :=
  if f > 1e-9 then .Right
  else if f < -(1e-9 : ℝ) then .Left
  else .Variable

/-- Scaling of the reported speed by a projection factor with ceiling
rounding, `Airport::scale_wind_speed` in `airport.rs`. -/
noncomputable def scale_wind_speed (speed : WindVelocity) (factor : ℝ) : Option ℤ :=
  speed.get_max_wind_speed.map (fun s => ⌈(s : ℝ) * factor⌉)

/-- Arc membership test used by both projection functions in `airport.rs`
(the local `includes` closure over `start`/`end` already reduced mod 360). -/
def arc_includes (s e a : ℕ) : Bool :=
  if s ≤ e then decide (s ≤ a ∧ a ≤ e) else decide (a ≥ s ∨ a ≤ e)

/-- The `factor` computed by `Airport::calculate_max_headwind_from_wind`
in `airport.rs` (the let-bound projection factor of that function). -/
noncomputable def headwind_factor (track : ℕ) (wind : Wind) : ℝ :=
  match wind.varying with
  | some (⟨.Data start⟩, ⟨.Data stop⟩) =>
      let s := start % 360
      let e := stop % 360
      if arc_includes s e (track % 360) then 1
      else max (Real.cos (deg2rad (diff_angle track s)))
               (Real.cos (deg2rad (diff_angle track e)))
  | _ =>
      match wind.dir with
      | .Heading t =>
          match t.val with
          | .Data wind_dir => Real.cos (deg2rad (diff_angle track wind_dir))
          | .Undefined => 1
      | .Variable => 1

/-- Maximum headwind component of a wind on a runway direction,
`Airport::calculate_max_headwind_from_wind` in `airport.rs`. -/
noncomputable def calculate_max_headwind_from_wind (runway : RunwayDirection)
    (wind : Wind) : Option ℤ :=
  scale_wind_speed wind.speed (headwind_factor runway.degrees wind)

/-- The `(factor, direction)` pair computed by
`Airport::calculate_max_crosswind_from_wind` in `airport.rs` (the let-bound
pair of that function). -/
noncomputable def crosswind_factor_direction (track : ℕ) (wind : Wind) :
    ℝ × CrosswindDirection :=
  match wind.varying with
    | some (⟨.Data start⟩, ⟨.Data stop⟩) =>
        let cross_from_right := (track + 90) % 360
        let cross_from_left := (track + 270) % 360
        let s := start % 360
        let e := stop % 360
        let includes_right := arc_includes s e cross_from_right
        let includes_left := arc_includes s e cross_from_left
        if includes_right ∧ includes_left then (1, .Variable)
        else if includes_right then (1, .Right)
        else if includes_left then (1, .Left)
        else
          let start_component := signed_crosswind_component_factor track s
          let end_component := signed_crosswind_component_factor track e
          let start_abs := |start_component|
          let end_abs := |end_component|
          if |start_abs - end_abs| < (1e-9 : ℝ) then
            (start_abs,
             if rust_signum start_component ≠ rust_signum end_component then
               CrosswindDirection.Variable
             else crosswind_direction_from_signed_factor start_component)
          else if start_abs > end_abs then
            (start_abs, crosswind_direction_from_signed_factor start_component)
          else
            (end_abs, crosswind_direction_from_signed_factor end_component)
    | _ =>
        match wind.dir with
        | .Heading t =>
            match t.val with
            | .Data wind_dir =>
                let signed_factor := signed_crosswind_component_factor track wind_dir
                (|signed_factor|, crosswind_direction_from_signed_factor signed_factor)
            | .Undefined => (1, .Variable)
        | .Variable => (1, .Variable)

/-- Maximum crosswind component and side of a wind on a runway direction,
`Airport::calculate_max_crosswind_from_wind` in `airport.rs`. -/
noncomputable def calculate_max_crosswind_from_wind (runway : RunwayDirection)
    (wind : Wind) : Option (ℤ × CrosswindDirection) :=
  let fd := crosswind_factor_direction runway.degrees wind
  (scale_wind_speed wind.speed fd.1).map (fun crosswind => (crosswind, fd.2))

/-- Cloud coverage, `CloudCoverage` in `obscuration.rs`. -/
inductive CloudCoverage where
  | Few
  | Scattered
  | Broken
  | Overcast
  deriving DecidableEq, Repr

/-- Cloud layer height in hundreds of feet, `CloudHeight` from the decoder's
`units::altitudes` module (absent from `src/`; its single `height` field is
fixed by the tests in `obscuration.rs`, e.g. `OVC018` → `height: 18`). -/
structure CloudHeight where
  height : ℕ
  deriving DecidableEq, Repr

/-- One reported cloud layer, `CloudData` in `obscuration.rs`. -/
structure CloudData where
  coverage : OptionalData CloudCoverage
  height : OptionalData CloudHeight
  cloud_type : Option (OptionalData String)
  deriving DecidableEq, Repr

/-- A cloud group, `Cloud` in `obscuration.rs`. -/
inductive Cloud where
  | NCD
  | NSC
  | CLR
  | CloudData (d : CloudData)
  deriving DecidableEq, Repr

/-- Distance modifier (`M` / `P`), `DistanceModifier` in `obscuration.rs`. -/
inductive DistanceModifier where
  | LessThan
  | GreaterThan
  deriving DecidableEq, Repr

/-- RVR trend comment, the `Trend` enum of `obscuration.rs` (named apart
from the `Trend` struct of `trend.rs`). -/
inductive RvrTrend where
  | Increasing
  | Decreasing
  | NoDistinctChange
  deriving DecidableEq, Repr

/-- A runway visual range group, `Rvr` in `obscuration.rs`. -/
structure Rvr where
  runway : String
  value : OptionalData ℕ
  distance_modifier : Option DistanceModifier
  comment : Option RvrTrend
  deriving DecidableEq, Repr

/-- Statute-mile visibility, `StatuteMilesVisibility` in `obscuration.rs`. -/
structure StatuteMilesVisibility where
  whole : Option ℕ
  fraction : Option (ℕ × ℕ)
  modifier : Option DistanceModifier
  deriving DecidableEq, Repr

/-- Visibility value, `VisibilityUnit` in `obscuration.rs`. -/
inductive VisibilityUnit where
  | Meters (v : OptionalData ℕ)
  | StatuteMiles (v : StatuteMilesVisibility)
  deriving DecidableEq, Repr

/-- Visibility group, `Visibility` in `obscuration.rs`. -/
structure Visibility where
  value : VisibilityUnit
  ndv : Bool
  deriving DecidableEq, Repr

/-- Weather intensity prefix, `WeatherIntensity` in `obscuration.rs`. -/
inductive WeatherIntensity where
  | Light
  | Heavy
  | Vicinity
  deriving DecidableEq, Repr

/-- Weather descriptor, `Qualifier` in `obscuration.rs`. -/
inductive Qualifier where
  | Shallow
  | Patches
  | Partial
  | Low
  | Blowing
  | Showers
  | Thunderstorm
  | Freezing
  deriving DecidableEq, Repr

/-- Weather phenomenon code, `WeatherPhenomenon` in `obscuration.rs`. -/
inductive WeatherPhenomenon where
  | DZ | RA | SN | SG | PL | GR | GS | UP | BR | FG
  | FU | VA | DU | SA | HZ | PO | SQ | FC | SS | DS
  deriving DecidableEq, Repr

/-- A present-weather group, `PresentWeather` in `obscuration.rs`.  The
`phenomena` elements are wrapped in `OptionalData` as required by the
`phenomenon.to_option()` call in `airport.rs` (the `obscuration.rs` copy
under `src/` predates that wrapping and stores the phenomena bare; its
parser below therefore always produces `Data`). -/
structure PresentWeather where
  intensity : Option WeatherIntensity
  descriptor : Option Qualifier
  phenomena : List (OptionalData WeatherPhenomenon)
  deriving DecidableEq, Repr

/-- Modelled from the spec: a reported vertical-visibility group (`VV` plus
three-digit-or-slashes height; §4.3 "vertical visibility reported").  The
type is referenced by `airport.rs` and `trend.rs` but its definition is
absent from the `obscuration.rs` copy under `src/`. -/
structure VerticalVisibility where
  height : OptionalData ℕ
  deriving DecidableEq, Repr

/-- A described (non-CAVOK) obscuration, `DescribedObscuration` in
`obscuration.rs`.  The `vertical_visibility` field is used by `airport.rs`
and `trend.rs` but absent from the struct copy under `src/`; the
`obscuration.rs` group parser correspondingly never sets it. -/
structure DescribedObscuration where
  visibility : Visibility
  rvr : List Rvr
  clouds : List Cloud
  present_weather : List PresentWeather
  vertical_visibility : Option VerticalVisibility
  deriving DecidableEq, Repr

/-- The obscuration group, `Obscuration` in `obscuration.rs`. -/
inductive Obscuration where
  | Described (d : DescribedObscuration)
  | Cavok
  deriving DecidableEq, Repr

/-- Temperature/dew-point pair, `TempratureInfo` from the decoder's
`temprature` module (source spelling as used by `metar.rs` and
`airport.rs`; the `temperature.rs` file under `src/` spells the same type
`TemperatureInfo`). -/
structure TempratureInfo where
  temp : OptionalData ℤ
  dew_point : OptionalData ℤ
  deriving DecidableEq, Repr

/-- Pressure unit, `PressureUnit` in `pressure.rs`. -/
inductive PressureUnit where
  | Hectopascals
  | InchesOfMercury
  deriving DecidableEq, Repr

/-- One pressure group, `PressureSingle` in `pressure.rs`. -/
structure PressureSingle where
  value : OptionalData ℕ
  unit : PressureUnit
  deriving DecidableEq, Repr

/-- The pressure section, `Pressure` in `pressure.rs`. -/
structure Pressure where
  qnh : Option PressureSingle
  altimeter : Option PressureSingle
  deriving DecidableEq, Repr

/-- Sea state code, `CodeTable3700` in `sea_surface_indicator.rs`. -/
inductive CodeTable3700 where
  | CalmGlassLike
  | CalmRippled
  | Smooth
  | Slight
  | Moderate
  | Rough
  | VeryRough
  | High
  | VeryHigh
  | Phenomenal
  deriving DecidableEq, Repr

/-- State of the sea, `StateOfSea` in `sea_surface_indicator.rs`. -/
inductive StateOfSea where
  | SeaSate (code : OptionalData CodeTable3700)
  | SignificantWaveHeight (dm : OptionalData ℕ)
  deriving DecidableEq, Repr

/-- Sea-surface group, `SeaSurfaceIndicator` in `sea_surface_indicator.rs`. -/
structure SeaSurfaceIndicator where
  temperature : OptionalData ℤ
  state_of_sea : OptionalData StateOfSea
  deriving DecidableEq, Repr

/-- NATO colour-state code type, `NatoMilCodeType` in `nato_mil_code.rs`. -/
inductive NatoMilCodeType where
  | Blue
  | White
  | Green
  | Yellow
  | Amber
  | Red
  | Black
  deriving DecidableEq, Repr

/-- NATO colour-state group, `NatoMilCode` in `nato_mil_code.rs`. -/
structure NatoMilCode where
  codes : List (NatoMilCodeType × Option Char)
  deriving DecidableEq, Repr

/-- A BECMG/TEMPO trend block, `Trend` in `trend.rs`. -/
structure Trend where
  wind : Option Wind
  visibility : Option Visibility
  expected_present_weather : Option (List PresentWeather)
  cloud_layers : Option (List Cloud)
  vertical_visibility : Option VerticalVisibility
  deriving DecidableEq, Repr

/-- Modelled from the spec: the observation timestamp (§6 grammar:
two-digit day, four-digit HHMM, `Z`); the decoder's `units::timestamp`
module is absent from `src/`. -/
structure Timestamp where
  day : ℕ
  hour : ℕ
  minute : ℕ
  deriving DecidableEq, Repr

/-- A decoded METAR observation, `Metar` in `metar_decoder/src/metar.rs`. -/
structure Metar where
  raw : String
  icao : String
  timestamp : Timestamp
  corrected : Bool
  auto : Bool
  wind : Wind
  obscuration : Obscuration
  temprature : TempratureInfo
  pressure : Pressure
  recent_weather : Option (List PresentWeather)
  nosig : Bool
  sea_surface_indicator : Option SeaSurfaceIndicator
  tempo : Option Trend
  becoming : Option Trend
  nato_mil_code : Option (OptionalData NatoMilCode)
  remarks : Option String
  deriving DecidableEq, Repr

/-- Source of a runway-in-use selection, `RunwayInUseSource` in
`airport.rs`. -/
inductive RunwayInUseSource where
  | Atis
  | Metar
  | Default
  deriving DecidableEq, Repr

/-- Precedence order of the selection sources,
`RunwayInUseSource::default_sort_order` in `airport.rs`. -/
def RunwayInUseSource.default_sort_order : List RunwayInUseSource :=
  [.Atis, .Metar, .Default]

/-- First value stored under a key, modelling `IndexMap` lookup. -/
def indexGet {κ ω : Type} [DecidableEq κ] (m : List (κ × ω)) (k : κ) : Option ω :=
  (m.find? (fun p => p.1 = k)).map Prod.snd

/-- Key-preserving insertion, modelling `IndexMap::insert` / collection:
an existing key keeps its position and gets the new value, a new key is
appended. -/
def indexInsert {κ ω : Type} [DecidableEq κ] (m : List (κ × ω)) (k : κ) (v : ω) :
    List (κ × ω) :=
  if m.any (fun p => p.1 = k) then
    m.map (fun p => if p.1 = k then (k, v) else p)
  else m ++ [(k, v)]

/-- An airport, `Airport` in `airport.rs`: ICAO code, latest observation,
runway pairs, and the per-source runway-in-use maps. -/
structure Airport where
  icao : String
  metar : Option Metar
  runways : List Runway
  runways_in_use : List (RunwayInUseSource × List (String × RunwayUse))

/-- Placeholder runway used to model Rust's panicking `Vec` indexing for
out-of-range indices; all policy call sites index in bounds. -/
def default_runway : Runway := ⟨⟨0, ""⟩, ⟨0, ""⟩⟩

/-- Maximum headwind for a runway direction of this airport,
`Airport::runway_max_headwind` in `airport.rs`. -/
noncomputable def Airport.runway_max_headwind (self : Airport)
    (runway_direction : RunwayDirection) : Option ℤ :=
  self.metar.bind (fun metar =>
    calculate_max_headwind_from_wind runway_direction metar.wind)

/-- Maximum crosswind for a runway direction of this airport,
`Airport::runway_max_crosswind` in `airport.rs`. -/
noncomputable def Airport.runway_max_crosswind (self : Airport)
    (runway_direction : RunwayDirection) : Option (ℤ × CrosswindDirection) :=
  self.metar.bind (fun metar =>
    calculate_max_crosswind_from_wind runway_direction metar.wind)

/-- Generic wind-based selection for one runway pair,
`Airport::internal_set_runway_based_on_metar_wind` in `airport.rs`. -/
noncomputable def internal_set_runway_based_on_metar_wind (self : Airport)
    (runway_index : ℕ) : Option (List (String × RunwayUse)) :=
  let headwinds : List (String × Option ℤ) :=
    (self.runways.getD runway_index default_runway).dirs.foldl
      (fun acc dir => indexInsert acc dir.identifier (self.runway_max_headwind dir)) []
  let valid_headwind_values : List ℤ := headwinds.filterMap Prod.snd
  if valid_headwind_values.isEmpty then none
  else
    match valid_headwind_values.min?, valid_headwind_values.max? with
    | some mn, some mx =>
        if mx - mn > 2 then
          match headwinds.find? (fun p => p.2 = some mx) with
          | some (ident, _) => some [(ident, RunwayUse.Both)]
          | none => none
        else none
    | _, _ => none

/-- Application error, the policy-relevant variant of `ApplicationError`
in `error.rs`. -/
inductive ApplicationError where
  | NoRunwayToSet
  deriving DecidableEq, Repr

/-- ENZV selection policy, `Airport::set_runway_for_enzv` in `airport.rs`.
The outer `Option` models Rust panics (`unwrap` on the main-runway search,
on a singleton selection's first key, and on the secondary crosswind):
`none` is a panic, `some` the function's `ApplicationResult`. -/
noncomputable def set_runway_for_enzv (self : Airport) :
    Option (Except ApplicationError (List (String × RunwayUse))) := do
  let main_runway_index ←
    self.runways.findIdx? (fun runway => runway.dirs.any (fun dir => dir.identifier = "18"))
  let main_runway : String ←
    match internal_set_runway_based_on_metar_wind self main_runway_index with
    | some rwy => rwy.head?.map Prod.fst
    | none => some "18"
  let default_fallback := Except.ok [(main_runway, RunwayUse.Both)]
  let main_runway_direction ←
    (self.runways.getD main_runway_index default_runway).dirs.find?
      (fun dir => dir.identifier = main_runway)
  match self.runway_max_crosswind main_runway_direction with
  | none => some default_fallback
  | some (crosswind, _crosswind_direction) =>
    if crosswind < 15 then some default_fallback
    else do
      let secondary_runway_index := main_runway_index &&& 1
      let sec ← self.runway_max_crosswind
        ((self.runways.getD secondary_runway_index default_runway).dirs.headD ⟨0, ""⟩)
      let secondary_runway_crosswind := sec.1
      match internal_set_runway_based_on_metar_wind self secondary_runway_index with
      | none => some default_fallback
      | some rwy => do
        let secondary_runway ← rwy.head?.map Prod.fst
        if secondary_runway_crosswind < crosswind then
          some (Except.ok [(secondary_runway, RunwayUse.Both)])
        else some default_fallback

/-- ENGM operating modes, `EngmModes` in `airport.rs`. -/
inductive EngmModes where
  | Mixed
  | Segregated
  | Single
  deriving DecidableEq, Repr

/-- The policy-relevant slice of the application configuration: the
per-ICAO default runway numbers, `ESConfig::get_default_runways` in
`config.rs`. -/
structure ESConfig where
  default_runways : List (String × ℕ)

/-- Access to the default runway table, `ESConfig::get_default_runways`. -/
def ESConfig.get_default_runways (self : ESConfig) : List (String × ℕ) :=
  self.default_runways

/-- Two-digit zero-padded formatting, Rust's `format!("{:02}", rwy)`. -/
def format02 (n : ℕ) : String :=
  if n < 10 then "0" ++ toString n else toString n

/-- The ENGM low-visibility-procedure ceiling flag, the `ceiling_for_lvp`
computation in `Airport::set_runway_for_engm` (`airport.rs` lines
191-212): some layer whose coverage is broken/overcast (undefined coverage
counts) has encoded height below 15, i.e. below 1500 ft (undefined height
counts). -/
def ceiling_for_lvp (clouds : List Cloud) : Bool :=
  (((clouds.filterMap (fun cloud =>
        match cloud with
        | .CloudData cloud_data => some cloud_data
        | .NCD | .NSC | .CLR => none)).filter
      (fun cloud =>
        match cloud.coverage with
        | .Data coverage => decide (coverage = .Broken ∨ coverage = .Overcast)
        | .Undefined => true)).any
    (fun cloud =>
      match cloud.height with
      | .Data height => decide (height.height < 15)
      | .Undefined => true))

/-- Modelled from the spec, for comparison with `ceiling_for_lvp` (claim
C5's wording): some reported broken/overcast layer (undefined coverage
counting as broken/overcast) has height below 500 ft, an undefined height
also counting as meeting the condition. -/
def spec_ceiling_below_500ft (clouds : List Cloud) : Bool :=
  clouds.any (fun cloud =>
    match cloud with
    | .CloudData cloud_data =>
        (match cloud_data.coverage with
         | .Data coverage => decide (coverage = .Broken ∨ coverage = .Overcast)
         | .Undefined => true) &&
        (match cloud_data.height with
         | .Data height => decide (height.height * 100 < 500)
         | .Undefined => true)
    | _ => false)

/-- The ENGM weather-minima disjunction of `Airport::set_runway_for_engm`
(`airport.rs` lines 181-250 and the flag test at lines 259-264): all six
flags are `false` when there is no observation or the obscuration is
CAVOK. -/
def engm_weather_minima (metar : Option Metar) : Bool :=
  match metar with
  | none => false
  | some m =>
    match m.obscuration with
    | .Cavok => false
    | .Described described_obscuration =>
        let ceiling := ceiling_for_lvp described_obscuration.clouds
        let rvr_reported := !described_obscuration.rvr.isEmpty
        let visibility_below_5000 :=
          match described_obscuration.visibility.value with
          | .Meters (.Data value) => decide (value < 5000)
          | .Meters .Undefined => true
          | .StatuteMiles _ => false
        let reported_vv := described_obscuration.vertical_visibility.isSome
        let forced_deice_condition :=
          (described_obscuration.present_weather.filterMap
            (fun pw => pw.descriptor)).any (fun descriptor => descriptor = .Freezing)
        let contender_for_deice :=
          ((described_obscuration.present_weather.map
              (fun pw => pw.phenomena)).flatten).any
            (fun phenomenon =>
              match phenomenon.to_option with
              | some p =>
                  match p with
                  | .DZ | .RA | .SN | .SG | .PL | .GR | .GS | .UP | .BR | .FG => true
                  | .FU | .VA | .DU | .SA | .HZ | .PO | .SQ | .FC | .SS | .DS => false
              | none => false)
        let possible_deice_conditions :=
          match m.temprature.temp with
          | .Undefined => contender_for_deice
          | .Data temp => decide (temp < 5) && contender_for_deice
        ceiling || rvr_reported || visibility_below_5000 || reported_vv ||
          possible_deice_conditions || forced_deice_condition

/-- The ENGM mode state machine of `Airport::set_runway_for_engm`
(`airport.rs` lines 252-269), with the Oslo wall-clock reading injected as
seconds of the local day: at or after 22:30 → Segregated, before 06:30 →
Single, otherwise Segregated when the weather minima hold and Mixed when
not. -/
def engm_mode (now_seconds : ℕ) (weather_minima : Bool) : EngmModes :=
  if 22 * 3600 + 30 * 60 ≤ now_seconds then EngmModes.Segregated
  else if now_seconds < 6 * 3600 + 30 * 60 then EngmModes.Single
  else if weather_minima then EngmModes.Segregated
  else EngmModes.Mixed

/-- ENGM selection policy, `Airport::set_runway_for_engm` in `airport.rs`,
with the current Oslo time injected as seconds of the local day.  The
outer `Option` models panics (`unwrap` on a singleton selection's first
key and the `unreachable!` for a non-`01`/`19` direction in Single
mode). -/
noncomputable def set_runway_for_engm (self : Airport) (config : ESConfig)
    (now_seconds : ℕ) :
    Option (RunwayInUseSource × List (String × RunwayUse)) := do
  let (source, runway_direction) ←
    match internal_set_runway_based_on_metar_wind self 0 with
    | some map =>
        map.head?.map (fun p => (RunwayInUseSource.Metar, p.1.take 2))
    | none =>
        some (RunwayInUseSource.Default,
          ((indexGet config.get_default_runways self.icao).map format02).getD "01")
  let mode := engm_mode now_seconds (engm_weather_minima self.metar)
  match mode with
  | .Mixed =>
      some (source, [(runway_direction ++ "L", RunwayUse.Both),
                     (runway_direction ++ "R", RunwayUse.Both)])
  | .Segregated =>
      some (source, [(runway_direction ++ "L", RunwayUse.Departing),
                     (runway_direction ++ "R", RunwayUse.Arriving)])
  | .Single =>
      if runway_direction = "01" then some (source, [("01L", RunwayUse.Both)])
      else if runway_direction = "19" then some (source, [("19R", RunwayUse.Both)])
      else none

/-- Per-airport effective selection for the report, the
`preferred_selection` computation of
`Airports::grouped_runway_config_report_data` in `airports.rs` (lines
170-177): the first present source in precedence order. -/
def preferred_selection (airport : Airport) : Option (RunwayInUseSource × List (String × RunwayUse)) :=
  RunwayInUseSource.default_sort_order.findSome? (fun selection_source =>
    (indexGet airport.runways_in_use selection_source).map
      (fun selection => (selection_source, selection)))

/-- The `ACTIVE_RUNWAY` lines written for one source's selection map, the
inner loops of `write_runway_file` in `config.rs` (lines 505-515). -/
def active_runway_lines (icao : String) (selection : List (String × RunwayUse)) :
    List String :=
  selection.flatMap (fun p =>
    p.2.active_runway_flags.map (fun flag =>
      "ACTIVE_RUNWAY:" ++ icao ++ ":" ++ p.1 ++ ":" ++ toString flag))

/-- All `ACTIVE_RUNWAY` lines written for one airport by
`write_runway_file` in `config.rs` (lines 494-517): airports without
runways are skipped, and every present source contributes its lines in
`default_sort_order` order. -/
def write_runway_lines (airport : Airport) : List String :=
  if airport.runways.isEmpty then []
  else
    RunwayInUseSource.default_sort_order.flatMap (fun selection_method =>
      match indexGet airport.runways_in_use selection_method with
      | none => []
      | some selection => active_runway_lines airport.icao selection)

/-- Dispatch of the wind-based policy,
`Airport::set_runway_based_on_metar_wind` in `airport.rs`; `none` models
the two `unreachable!` panics (ENGM and unhandled multi-pair airports). -/
noncomputable def set_runway_based_on_metar_wind (self : Airport) :
    Option (Except ApplicationError (List (String × RunwayUse))) :=
  if self.icao = "ENGM" then none
  else if self.icao = "ENZV" then set_runway_for_enzv self
  else if self.runways.length = 1 then
    some (match internal_set_runway_based_on_metar_wind self 0 with
          | some m => Except.ok m
          | none => Except.error ApplicationError.NoRunwayToSet)
  else none

/-- An observation fixture around a given wind group, for concrete test
inputs. -/
def fixture_metar (w : Wind) : Metar :=
  { raw := "", icao := "", timestamp := ⟨1, 0, 0⟩, corrected := false,
    auto := false, wind := w, obscuration := .Cavok,
    temprature := ⟨.Undefined, .Undefined⟩, pressure := ⟨none, none⟩,
    recent_weather := none, nosig := false, sea_surface_indicator := none,
    tempo := none, becoming := none, nato_mil_code := none, remarks := none }

/-- A steady 080° 8-unit wind. -/
def wind080_8 : Wind := ⟨.Heading ⟨.Data 80⟩, ⟨.Data 8, none, .Knots⟩, none⟩

/-- Single-pair test airport fashioned after ENHV (runway 08/26). -/
def enhv_airport : Airport :=
  ⟨"ENHV", some (fixture_metar wind080_8), [⟨⟨80, "08"⟩, ⟨260, "26"⟩⟩], []⟩

/-- ENGM test airport with its two parallel pairs and no observation. -/
def engm_airport : Airport :=
  ⟨"ENGM", none, [⟨⟨7, "01L"⟩, ⟨187, "19R"⟩⟩, ⟨⟨7, "01R"⟩, ⟨187, "19L"⟩⟩], []⟩

/-- ENZV test airport with its crossing pairs 10/28 and 18/36 (the main,
`"18"`-containing pair at index 1) and no observation. -/
def enzv_airport : Airport :=
  ⟨"ENZV", none, [⟨⟨104, "10"⟩, ⟨284, "28"⟩⟩, ⟨⟨184, "18"⟩, ⟨4, "36"⟩⟩], []⟩

/-- Test airport carrying selections from all three sources. -/
def report_airport : Airport :=
  ⟨"ENXX", none, [⟨⟨10, "01"⟩, ⟨190, "19"⟩⟩],
   [(.Atis, [("01", .Both)]), (.Metar, [("19", .Both)]),
    (.Default, [("01", .Both)])]⟩

/-- A broken layer at 1000 ft (encoded height 10). -/
def bkn010 : List Cloud :=
  [Cloud.CloudData ⟨.Data .Broken, .Data ⟨10⟩, none⟩]

/-- A nom-style complete-input parser: `none` is nom's recoverable
`Err::Error`, `some (rest, value)` a success.  The decoder uses no
`Failure`/`Incomplete` variants (no cut combinators, complete parsers
only), so a single error state suffices. -/
def P (α : Type) : Type := List Char → Option (List Char × α)

/-- Monadic sequencing of parsers, the semantics of nom tuple parsers. -/
def bindP {α β : Type} (p : P α) (f : α → P β) : P β := fun i =>
  match p i with
  | none => none
  | some (r, a) => f a r

/-- A parser returning a value without consuming input. -/
def pureP {α : Type} (a : α) : P α := fun i => some (i, a)

instance : Monad P where
  pure := pureP
  bind := bindP

/-- The always-failing parser. -/
def failP {α : Type} : P α := fun _ => none

/-- nom's `char`: match one exact character. -/
def pchar (c : Char) : P Char := fun i =>
  match i with
  | [] => none
  | x :: rest => if x = c then some (rest, c) else none

/-- nom's `tag`: match an exact string. -/
def tagP (s : String) : P Unit := fun i =>
  if s.data.isPrefixOf i then some (i.drop s.data.length, ()) else none

/-- nom's `value`: run a parser, return a constant. -/
def valueP {α β : Type} (v : α) (p : P β) : P α := fun i =>
  match p i with
  | none => none
  | some (r, _) => some (r, v)

/-- nom's `map`. -/
def mapP {α β : Type} (p : P α) (f : α → β) : P β := fun i =>
  match p i with
  | none => none
  | some (r, a) => some (r, f a)

/-- nom's `map_res` with `Option` standing for the fallible conversion. -/
def mapResP {α β : Type} (p : P α) (f : α → Option β) : P β := fun i =>
  match p i with
  | none => none
  | some (r, a) =>
      match f a with
      | none => none
      | some b => some (r, b)

/-- nom's `opt`: an optional parser never fails. -/
def optP {α : Type} (p : P α) : P (Option α) := fun i =>
  match p i with
  | none => some (i, none)
  | some (r, a) => some (r, some a)

/-- nom's `alt` for two parsers. -/
def altP {α : Type} (p q : P α) : P α := fun i =>
  match p i with
  | some r => some r
  | none => q i

/-- nom's `alt` over a list of parsers: the first success, in order. -/
def altsP {α : Type} (ps : List (P α)) : P α := fun i =>
  ps.findSome? (fun p => p i)

/-- nom's `preceded`. -/
def precededP {α β : Type} (p : P α) (q : P β) : P β :=
  bindP p (fun _ => q)

/-- nom's `terminated`. -/
def terminatedP {α β : Type} (p : P α) (q : P β) : P α :=
  bindP p (fun a => mapP q (fun _ => a))

/-- nom's `separated_pair`. -/
def separated_pairP {α β γ : Type} (p : P α) (sep : P β) (q : P γ) : P (α × γ) :=
  bindP p (fun a => bindP sep (fun _ => mapP q (fun c => (a, c))))

/-- nom's `space0`: consume any run of spaces and tabs, never failing. -/
def space0P : P Unit := fun i =>
  some (i.dropWhile (fun c => c = ' ' ∨ c = '\t'), ())

/-- nom's `take(n)`: exactly `n` characters. -/
def takeP (n : ℕ) : P (List Char) := fun i =>
  if n ≤ i.length then some (i.drop n, i.take n) else none

/-- nom's `rest`: consume and return the whole remaining input. -/
def restP : P (List Char) := fun i => some ([], i)

/-- nom's `all_consuming`: succeed only when the inner parser leaves no
input. -/
def all_consumingP {α : Type} (p : P α) : P α := fun i =>
  match p i with
  | some ([], a) => some ([], a)
  | _ => none

/-- nom's `map_parser`: run `inner` over the slice produced by `outer`,
keep `outer`'s remaining input. -/
def map_parserP {α : Type} (outer : P (List Char)) (inner : P α) : P α := fun i =>
  match outer i with
  | none => none
  | some (r, s) =>
      match inner s with
      | none => none
      | some (_, a) => some (r, a)

/-- Decimal value of a digit run. -/
def digitsToNat (ds : List Char) : ℕ :=
  ds.foldl (fun acc c => acc * 10 + (c.toNat - 48)) 0

/-- nom's `character::complete::u32`: a maximal nonempty digit run whose
value fits in 32 bits (nom errors on overflow). -/
def u32P : P ℕ := fun i =>
  let ds := i.takeWhile Char.isDigit
  if ds.isEmpty then none
  else if digitsToNat ds < 4294967296 then some (i.drop ds.length, digitsToNat ds)
  else none

/-- nom's `character::complete::u8`. -/
def u8P : P ℕ := fun i =>
  let ds := i.takeWhile Char.isDigit
  if ds.isEmpty then none
  else if digitsToNat ds < 256 then some (i.drop ds.length, digitsToNat ds)
  else none

/-- nom's `character::complete::u16`. -/
def u16P : P ℕ := fun i =>
  let ds := i.takeWhile Char.isDigit
  if ds.isEmpty then none
  else if digitsToNat ds < 65536 then some (i.drop ds.length, digitsToNat ds)
  else none

/-- nom's `character::complete::i32`: optional sign, digit run, 32-bit
signed bounds. -/
def i32P : P ℤ := fun i =>
  let sr : ℤ × List Char :=
    match i with
    | c :: rest =>
        if c = '+' then (1, rest)
        else if c = '-' then (-1, rest)
        else (1, i)
    | [] => (1, i)
  let ds := sr.2.takeWhile Char.isDigit
  if ds.isEmpty then none
  else
    let v : ℤ := sr.1 * digitsToNat ds
    if -2147483648 ≤ v ∧ v ≤ 2147483647 then some (sr.2.drop ds.length, v)
    else none

/-- nom's `alphanumeric1`. -/
def alphanumeric1P : P (List Char) := fun i =>
  let ds := i.takeWhile Char.isAlphanum
  if ds.isEmpty then none else some (i.drop ds.length, ds)

/-- nom's `one_of`. -/
def one_ofP (s : String) : P Char := fun i =>
  match i with
  | [] => none
  | c :: rest => if s.data.contains c then some (rest, c) else none

/-- Fueled body of nom's `many0`; a success without consumption is nom's
`Many0` infinite-loop error. -/
def many0F {α : Type} (p : P α) : ℕ → List Char → Option (List Char × List α)
  | 0, _ => none
  | fuel + 1, i =>
    match p i with
    | none => some (i, [])
    | some (i2, a) =>
        if i2.length = i.length then none
        else
          match many0F p fuel i2 with
          | none => none
          | some (r, as) => some (r, a :: as)

/-- nom's `many0` (each iteration consumes, so the fuel is never the
limiting factor). -/
def many0P {α : Type} (p : P α) : P (List α) := fun i =>
  many0F p (i.length + 1) i

/-- nom's `many1`. -/
def many1P {α : Type} (p : P α) : P (List α) := fun i =>
  match p i with
  | none => none
  | some (i2, a) =>
      if i2.length = i.length then none
      else
        match many0F p (i2.length + 1) i2 with
        | none => none
        | some (r, as) => some (r, a :: as)

/-- Fueled loop shared by nom's `separated_list0`/`separated_list1`: a
separator match without consumption is nom's `SeparatedList` error;
a failing separator or element returns the list accumulated so far,
backtracking to before the separator. -/
def sepLoopF {α β : Type} (sep : P β) (p : P α) :
    ℕ → List Char → List α → Option (List Char × List α)
  | 0, _, _ => none
  | fuel + 1, i, acc =>
    match sep i with
    | none => some (i, acc)
    | some (i2, _) =>
        if i2.length = i.length then none
        else
          match p i2 with
          | none => some (i, acc)
          | some (i3, a) => sepLoopF sep p fuel i3 (acc ++ [a])

/-- nom's `separated_list0`. -/
def separated_list0P {α β : Type} (sep : P β) (p : P α) : P (List α) := fun i =>
  match p i with
  | none => some (i, [])
  | some (i1, a) => sepLoopF sep p (i1.length + 1) i1 [a]

/-- nom's `separated_list1`. -/
def separated_list1P {α β : Type} (sep : P β) (p : P α) : P (List α) := fun i =>
  match p i with
  | none => none
  | some (i1, a) => sepLoopF sep p (i1.length + 1) i1 [a]

/-- Modelled from the spec's undefined-data convention (§6: "any run of
`/` in place of digits decodes to the explicit undefined state"), as used
throughout the decoder: `OptionalData::optional_field::<_, N>` first tries
`N` slashes (`Undefined`), else the inner parser (`Data`); the
`optional_data` module itself is absent from `src/`. -/
def optional_fieldP {α : Type} (n : ℕ) (p : P α) : P (OptionalData α) :=
  altP (valueP OptionalData.Undefined (tagP (String.mk (List.replicate n '/'))))
    (mapP p OptionalData.Data)

/-- nom's `permutation` over three parsers: repeatedly run the first
not-yet-satisfied parser (in tuple order) that matches at the current
position; fail when a full round makes no progress before all three have
matched.  This is exactly the loop generated by nom's
`permutation_trait_impl` macro for a 3-tuple. -/
def perm3 {α β γ : Type} (pa : P α) (pb : P β) (pc : P γ) : P (α × β × γ) := fun i =>
  match pa i with
  | some (i1, a) =>
      match pb i1 with
      | some (i2, b) =>
          match pc i2 with
          | some (i3, c) => some (i3, (a, b, c))
          | none => none
      | none =>
          match pc i1 with
          | some (i2, c) =>
              match pb i2 with
              | some (i3, b) => some (i3, (a, b, c))
              | none => none
          | none => none
  | none =>
      match pb i with
      | some (i1, b) =>
          match pa i1 with
          | some (i2, a) =>
              match pc i2 with
              | some (i3, c) => some (i3, (a, b, c))
              | none => none
          | none =>
              match pc i1 with
              | some (i2, c) =>
                  match pa i2 with
                  | some (i3, a) => some (i3, (a, b, c))
                  | none => none
              | none => none
      | none =>
          match pc i with
          | some (i1, c) =>
              match pa i1 with
              | some (i2, a) =>
                  match pb i2 with
                  | some (i3, b) => some (i3, (a, b, c))
                  | none => none
              | none =>
                  match pb i1 with
                  | some (i2, b) =>
                      match pa i2 with
                      | some (i3, a) => some (i3, (a, b, c))
                      | none => none
                  | none => none
          | none => none

/-- Distance modifier parser, `nom_distance_modifier` in `obscuration.rs`. -/
def nom_distance_modifier : P DistanceModifier :=
  altP (valueP DistanceModifier.LessThan (tagP "M"))
    (valueP DistanceModifier.GreaterThan (tagP "P"))

/-- Fraction parser, `nom_fraction` in `obscuration.rs`. -/
def nom_fraction : P (ℕ × ℕ) := separated_pairP u32P (tagP "/") u32P

/-- The `fraction_only` closure of `nom_statute_miles_visibility` in
`obscuration.rs`. -/
def nom_sm_fraction_only : P StatuteMilesVisibility :=
  mapP (bindP (optP nom_distance_modifier)
         (fun modifier => mapP (terminatedP nom_fraction (tagP "SM"))
           (fun fraction => (modifier, fraction))))
    (fun p => ⟨none, some p.2, p.1⟩)

/-- The `whole` closure of `nom_statute_miles_visibility` in
`obscuration.rs`. -/
def nom_sm_whole : P StatuteMilesVisibility :=
  mapP (terminatedP
         (bindP (optP nom_distance_modifier) (fun modifier =>
           bindP u32P (fun whole =>
             mapP (optP (precededP (tagP " ") nom_fraction))
               (fun fraction => (modifier, whole, fraction)))))
         (tagP "SM"))
    (fun p => ⟨some p.2.1, p.2.2, p.1⟩)

/-- Statute-mile visibility parser, `nom_statute_miles_visibility` in
`obscuration.rs`. -/
def nom_statute_miles_visibility : P StatuteMilesVisibility :=
  altP nom_sm_fraction_only nom_sm_whole

/-- Visibility parser, `nom_visibility` in `obscuration.rs`. -/
def nom_visibility : P Visibility :=
  bindP (altP (mapP nom_statute_miles_visibility VisibilityUnit.StatuteMiles)
          (mapP (optional_fieldP 4 (map_parserP (takeP 4) (all_consumingP u32P)))
            VisibilityUnit.Meters))
    (fun value => mapP (optP (tagP "NDV"))
      (fun ndv => ⟨value, ndv.isSome⟩))

/-- RVR parser, `nom_rvr` in `obscuration.rs`. -/
def nom_rvr : P Rvr :=
  mapP (precededP (tagP "R")
         (separated_pairP alphanumeric1P (tagP "/")
           (bindP (optP nom_distance_modifier) (fun dm =>
             bindP (optional_fieldP 4 (map_parserP (takeP 4) (all_consumingP u32P)))
               (fun v => mapP (optP (altsP
                   [valueP RvrTrend.Decreasing (tagP "D"),
                    valueP RvrTrend.Increasing (tagP "U"),
                    valueP RvrTrend.NoDistinctChange (tagP "N")]))
                 (fun c => (dm, v, c)))))))
    (fun p => ⟨String.mk p.1, p.2.2.1, p.2.1, p.2.2.2⟩)

/-- Cloud coverage parser, `nom_cloud_coverage` in `obscuration.rs`. -/
def nom_cloud_coverage : P (OptionalData CloudCoverage) :=
  optional_fieldP 3 (altsP
    [valueP CloudCoverage.Few (tagP "FEW"),
     valueP CloudCoverage.Scattered (tagP "SCT"),
     valueP CloudCoverage.Broken (tagP "BKN"),
     valueP CloudCoverage.Overcast (tagP "OVC")])

/-- Modelled from the spec (§6 grammar: `3-digit-or-"///" height`): the
cloud-height parser from the decoder's `units::altitudes` module, absent
from `src/`. -/
def nom_cloud_height : P (OptionalData CloudHeight) :=
  optional_fieldP 3
    (mapP (map_parserP (takeP 3) (all_consumingP u32P)) (fun h => ⟨h⟩))

/-- Cloud type parser, `nom_cloud_type` in `obscuration.rs`. -/
def nom_cloud_type : P (OptionalData String) :=
  optional_fieldP 3 (mapP alphanumeric1P String.mk)

/-- Cloud data parser, `nom_cloud_data` in `obscuration.rs`. -/
def nom_cloud_data : P CloudData :=
  bindP nom_cloud_coverage (fun coverage =>
    bindP nom_cloud_height (fun height =>
      mapP (optP nom_cloud_type) (fun cloud_type =>
        ⟨coverage, height, cloud_type⟩)))

/-- Cloud group parser, `nom_cloud` in `obscuration.rs` (the struct's
`CLR` variant has no production in this copy of the parser). -/
def nom_cloud : P Cloud :=
  altsP
    [valueP Cloud.NCD (tagP "NCD"),
     valueP Cloud.NSC (tagP "NSC"),
     mapP nom_cloud_data Cloud.CloudData]

/-- Weather intensity alternatives of `nom_present_weather` in
`obscuration.rs`. -/
def nom_weather_intensity : P WeatherIntensity :=
  altsP
    [valueP WeatherIntensity.Light (tagP "-"),
     valueP WeatherIntensity.Heavy (tagP "+"),
     valueP WeatherIntensity.Vicinity (tagP "VC")]

/-- Weather descriptor alternatives of `nom_present_weather` in
`obscuration.rs`. -/
def nom_weather_qualifier : P Qualifier :=
  altsP
    [valueP Qualifier.Shallow (tagP "MI"),
     valueP Qualifier.Patches (tagP "BC"),
     valueP Qualifier.Partial (tagP "PR"),
     valueP Qualifier.Low (tagP "DR"),
     valueP Qualifier.Blowing (tagP "BL"),
     valueP Qualifier.Showers (tagP "SH"),
     valueP Qualifier.Thunderstorm (tagP "TS"),
     valueP Qualifier.Freezing (tagP "FZ")]

/-- Weather phenomenon alternatives of `nom_present_weather` in
`obscuration.rs`. -/
def nom_weather_phenomenon : P WeatherPhenomenon :=
  altsP
    [valueP WeatherPhenomenon.DZ (tagP "DZ"),
     valueP WeatherPhenomenon.RA (tagP "RA"),
     valueP WeatherPhenomenon.SN (tagP "SN"),
     valueP WeatherPhenomenon.SG (tagP "SG"),
     valueP WeatherPhenomenon.PL (tagP "PL"),
     valueP WeatherPhenomenon.GR (tagP "GR"),
     valueP WeatherPhenomenon.GS (tagP "GS"),
     valueP WeatherPhenomenon.UP (tagP "UP"),
     valueP WeatherPhenomenon.BR (tagP "BR"),
     valueP WeatherPhenomenon.FG (tagP "FG"),
     valueP WeatherPhenomenon.FU (tagP "FU"),
     valueP WeatherPhenomenon.VA (tagP "VA"),
     valueP WeatherPhenomenon.DU (tagP "DU"),
     valueP WeatherPhenomenon.SA (tagP "SA"),
     valueP WeatherPhenomenon.HZ (tagP "HZ"),
     valueP WeatherPhenomenon.PO (tagP "PO"),
     valueP WeatherPhenomenon.SQ (tagP "SQ"),
     valueP WeatherPhenomenon.FC (tagP "FC"),
     valueP WeatherPhenomenon.SS (tagP "SS"),
     valueP WeatherPhenomenon.DS (tagP "DS")]

/-- Present-weather parser, `nom_present_weather` in `obscuration.rs`
(`map_res` rejects a group with neither descriptor nor phenomena). -/
def nom_present_weather : P PresentWeather :=
  mapResP
    (bindP (optP nom_weather_intensity) (fun intensity =>
      bindP (optP nom_weather_qualifier) (fun descriptor =>
        mapP (many0P (mapP nom_weather_phenomenon OptionalData.Data))
          (fun phenomena => (intensity, descriptor, phenomena)))))
    (fun p =>
      if p.2.1.isNone ∧ p.2.2.isEmpty then none
      else some ⟨p.1, p.2.1, p.2.2⟩)

/-- Described-obscuration parser, `nom_described_obscuration` in
`obscuration.rs` (this copy parses no vertical-visibility group, so the
field is always `none`). -/
def nom_described_obscuration : P DescribedObscuration :=
  bindP nom_visibility (fun visibility =>
    bindP (precededP (optP (pchar ' '))
            (separated_list0P (pchar ' ') nom_present_weather)) (fun present_weather =>
      bindP (precededP (optP (pchar ' '))
              (separated_list0P (pchar ' ') nom_rvr)) (fun rvr =>
        mapP (precededP (optP (pchar ' '))
               (separated_list0P (pchar ' ') nom_cloud)) (fun clouds =>
          ⟨visibility, rvr, clouds, present_weather, none⟩))))

/-- Obscuration parser, `nom_obscuration` in `obscuration.rs`. -/
def nom_obscuration : P Obscuration :=
  altP (valueP Obscuration.Cavok (tagP "CAVOK"))
    (mapP nom_described_obscuration Obscuration.Described)

/-- Possibly `M`-negated temperature, `nom_maybe_negative_temp` in the
decoder's temperature module. -/
def nom_maybe_negative_temp : P ℤ :=
  bindP (optP (pchar 'M')) (fun sign =>
    mapP i32P (fun temp => if sign.isSome then -temp else temp))

/-- Temperature/dew-point parser, `nom_temprature_info`
(`nom_temperature_info` in `temperature.rs`). -/
def nom_temprature_info : P TempratureInfo :=
  mapP (separated_pairP (optional_fieldP 2 nom_maybe_negative_temp) (pchar '/')
         (optional_fieldP 2 nom_maybe_negative_temp))
    (fun p => ⟨p.1, p.2⟩)

/-- One pressure group, `nom_pressure_single` in `pressure.rs`. -/
def nom_pressure_single (unit : PressureUnit) : P PressureSingle :=
  precededP (pchar (match unit with
    | .Hectopascals => 'Q'
    | .InchesOfMercury => 'A'))
    (mapP (optional_fieldP 4 (map_parserP (takeP 4) (all_consumingP u32P)))
      (fun value => ⟨value, unit⟩))

/-- Pressure parser, `nom_pressure` in `pressure.rs` (`map_res` requires
at least one of QNH and altimeter). -/
def nom_pressure : P Pressure :=
  mapResP
    (bindP (optP (nom_pressure_single .Hectopascals)) (fun qnh =>
      mapP (optP (nom_pressure_single .InchesOfMercury)) (fun altimeter =>
        (qnh, altimeter))))
    (fun p =>
      if p.1.isSome || p.2.isSome then some ⟨p.1, p.2⟩ else none)

/-- State-of-sea parser, `nom_state_of_sea` in `sea_surface_indicator.rs`. -/
def nom_state_of_sea : P StateOfSea :=
  mapP (precededP (pchar 'S')
         (optional_fieldP 1 (mapResP u8P (fun code =>
           match code with
           | 0 => some CodeTable3700.CalmGlassLike
           | 1 => some CodeTable3700.CalmRippled
           | 2 => some CodeTable3700.Smooth
           | 3 => some CodeTable3700.Slight
           | 4 => some CodeTable3700.Moderate
           | 5 => some CodeTable3700.Rough
           | 6 => some CodeTable3700.VeryRough
           | 7 => some CodeTable3700.High
           | 8 => some CodeTable3700.VeryHigh
           | 9 => some CodeTable3700.Phenomenal
           | _ => none))))
    StateOfSea.SeaSate

/-- Wave-height parser, `nom_significant_wave_height` in
`sea_surface_indicator.rs`. -/
def nom_significant_wave_height : P StateOfSea :=
  mapP (precededP (pchar 'H') (optional_fieldP 3 u16P))
    StateOfSea.SignificantWaveHeight

/-- Sea-surface parser, `nom_sea_surface_indicator` in
`sea_surface_indicator.rs`. -/
def nom_sea_surface_indicator : P SeaSurfaceIndicator :=
  mapP (separated_pairP
         (precededP (pchar 'W') (optional_fieldP 2 nom_maybe_negative_temp))
         (pchar '/')
         (optional_fieldP 2 (altP nom_state_of_sea nom_significant_wave_height)))
    (fun p => ⟨p.1, p.2⟩)

/-- NATO colour-state parser, `nom_nato_mil_code` in `nato_mil_code.rs`. -/
def nom_nato_mil_code : P NatoMilCode :=
  mapP (separated_list1P space0P
         (bindP (altsP
             [valueP NatoMilCodeType.Blue (tagP "BLU"),
              valueP NatoMilCodeType.White (tagP "WHT"),
              valueP NatoMilCodeType.Green (tagP "GRN"),
              valueP NatoMilCodeType.Yellow (tagP "YLO"),
              valueP NatoMilCodeType.Amber (tagP "AMB"),
              valueP NatoMilCodeType.Red (tagP "RED"),
              valueP NatoMilCodeType.Black (tagP "BLACK")])
           (fun ty => mapP (optP (one_ofP "+-")) (fun sign => (ty, sign)))))
    NatoMilCode.mk

/-- Modelled from the spec (§4.3: "vertical visibility reported"; the
decoder's vertical-visibility parser is absent from the `obscuration.rs`
copy under `src/`): a `VV` tag with three-digit-or-slashes height.  Used
only by the trend parser, matching `trend.rs`. -/
def nom_vertical_visibility : P VerticalVisibility :=
  mapP (precededP (tagP "VV")
         (optional_fieldP 3 (map_parserP (takeP 3) (all_consumingP u32P))))
    (fun od => ⟨od⟩)

/-- Modelled from the spec (§6 grammar for the wind group:
`3-digit-or-"VRB" direction, 2-3 digit speed, ["G" gust],
unit("KT"|"MPS"), [" " 3-digit "V" 3-digit]`, with slash runs decoding to
the undefined state): the decoder's `wind` module is absent from
`src/`. -/
def nom_wind_direction : P WindDirection :=
  altP (valueP WindDirection.Variable (tagP "VRB"))
    (mapP (optional_fieldP 3 (map_parserP (takeP 3) (all_consumingP u32P)))
      (fun od => WindDirection.Heading ⟨od⟩))

/-- Modelled from the spec: a 2-3 digit wind speed figure (or slashes). -/
def nom_wind_speed_figure : P (OptionalData ℕ) :=
  optional_fieldP 2
    (altP (map_parserP (takeP 3) (all_consumingP u32P))
      (map_parserP (takeP 2) (all_consumingP u32P)))

/-- Modelled from the spec: the wind group parser `nom_wind` (decoder
`wind` module absent from `src/`), per the §6 grammar. -/
def nom_wind : P Wind :=
  bindP nom_wind_direction (fun dir =>
    bindP nom_wind_speed_figure (fun velocity =>
      bindP (optP (precededP (tagP "G") nom_wind_speed_figure)) (fun gust =>
        bindP (altP (valueP VelocityUnit.Knots (tagP "KT"))
                (valueP VelocityUnit.MetersPerSecond (tagP "MPS"))) (fun unit =>
          mapP (optP (precededP (pchar ' ')
                 (separated_pairP (map_parserP (takeP 3) (all_consumingP u32P))
                   (tagP "V") (map_parserP (takeP 3) (all_consumingP u32P)))))
            (fun varying =>
              ⟨dir, ⟨velocity, gust, unit⟩,
               varying.map (fun p => (⟨.Data p.1⟩, ⟨.Data p.2⟩))⟩)))))

/-- Trend parser, `nom_becoming` in `trend.rs`. -/
def nom_becoming : P Trend :=
  bindP (optP (precededP space0P nom_wind)) (fun wind =>
    bindP (optP (precededP space0P nom_visibility)) (fun visibility =>
      bindP (optP (many1P (precededP space0P nom_present_weather))) (fun epw =>
        bindP (optP (many1P (precededP space0P nom_cloud))) (fun cloud_layers =>
          mapP (optP (precededP space0P nom_vertical_visibility)) (fun vv =>
            ⟨wind, visibility, epw, cloud_layers, vv⟩)))))

/-- Modelled from the spec (§6 grammar: `2-digit day + 4-digit HHMM +
"Z"`): the timestamp parser from the decoder's `units::timestamp` module,
absent from `src/`. -/
def nom_metar_timestamp : P Timestamp :=
  mapResP (bindP (takeP 2) (fun d =>
            mapP (terminatedP (takeP 4) (pchar 'Z')) (fun hm => (d, hm))))
    (fun p =>
      if (p.1 ++ p.2).all Char.isDigit then
        some ⟨digitsToNat p.1, digitsToNat (p.2.take 2), digitsToNat (p.2.drop 2)⟩
      else none)

/-- Modelled from the spec (§6 grammar: `[present-weather]` after the
permuted section; the recent-weather parser is absent from the
`obscuration.rs` copy under `src/`): a recent-weather `RE` indicator
followed by present-weather groups. -/
def nom_recent_present_weather : P (List PresentWeather) :=
  precededP (tagP "RE") (many1P nom_present_weather)

/-- The sky-state group parser of the permuted middle section of
`nom_parse_metar` (`metar.rs` line 154). -/
def p_obscuration_group : P Obscuration :=
  precededP (pchar ' ') nom_obscuration

/-- The temperature group parser of the permuted middle section of
`nom_parse_metar` (`metar.rs` line 155 — note its merely optional leading
space). -/
def p_temprature_group : P TempratureInfo :=
  precededP (optP (pchar ' ')) nom_temprature_info

/-- The pressure group parser of the permuted middle section of
`nom_parse_metar` (`metar.rs` line 156). -/
def p_pressure_group : P Pressure :=
  precededP (pchar ' ') nom_pressure

/-- The permuted middle section of `nom_parse_metar`: nom `permutation`
over the three group parsers. -/
def metar_middle_permutation : P (Obscuration × TempratureInfo × Pressure) :=
  perm3 p_obscuration_group p_temprature_group p_pressure_group

/-- The three middle group parsers applied sequentially in the canonical
order (sky-state, temperature, pressure), for comparison with the
permutation. -/
def metar_middle_canonical : P (Obscuration × TempratureInfo × Pressure) :=
  bindP p_obscuration_group (fun o =>
    bindP p_temprature_group (fun t =>
      mapP p_pressure_group (fun p => (o, t, p))))

/-- The mandatory leading groups of `nom_parse_metar` (`metar.rs` lines
148-152): station, timestamp, COR/AUTO flags and wind. -/
def nom_metar_leading :
    P (List Char × Timestamp × Option Unit × Option Unit × Wind) :=
  bindP (takeP 4) (fun icao =>
    bindP (precededP (pchar ' ') nom_metar_timestamp) (fun timestamp =>
      bindP (optP (tagP " COR")) (fun corrected =>
        bindP (optP (tagP " AUTO")) (fun auto =>
          mapP (precededP (pchar ' ') nom_wind) (fun wind =>
            (icao, timestamp, corrected, auto, wind))))))

/-- The mandatory section of `nom_parse_metar`: the leading groups
followed by the permuted sky-state/temperature/pressure section. -/
def nom_metar_mandatory :
    P ((List Char × Timestamp × Option Unit × Option Unit × Wind) ×
       (Obscuration × TempratureInfo × Pressure)) :=
  bindP nom_metar_leading (fun lead =>
    mapP metar_middle_permutation (fun mid => (lead, mid)))

/-- The trailing optional chain of `nom_parse_metar` (`metar.rs` lines
158-173): recent weather, sea surface, NATO code, NOSIG, BECMG, TEMPO and
the remark. -/
def nom_metar_trailing :
    P (Option (List PresentWeather) × Option SeaSurfaceIndicator ×
       Option (OptionalData NatoMilCode) × Option Unit × Option Trend ×
       Option Trend × Option (List Char)) :=
  bindP (precededP space0P (optP nom_recent_present_weather)) (fun recent =>
    bindP (precededP space0P (optP nom_sea_surface_indicator)) (fun ssi =>
      bindP (optP (precededP space0P (optional_fieldP 3 nom_nato_mil_code))) (fun nato =>
        bindP (optP (precededP space0P (tagP "NOSIG"))) (fun nosig =>
          bindP (optP (precededP (bindP space0P (fun _ => tagP "BECMG"))
                  nom_becoming)) (fun becoming =>
            bindP (optP (precededP (bindP space0P (fun _ => tagP "TEMPO"))
                    nom_becoming)) (fun tempo =>
              mapP (optP (precededP (bindP space0P (fun _ => tagP "RMK "))
                     (mapResP restP (fun s => if s.isEmpty then none else some s))))
                (fun remark =>
                  (recent, ssi, nato, nosig, becoming, tempo, remark))))))))

/-- The whole-line parser `nom_parse_metar` in `metar.rs`: the mandatory
section, then the trailing chain, assembled into a `Metar`. -/
def nom_parse_metar (input : List Char) : Option (List Char × Metar) :=
  match nom_metar_mandatory input with
  | none => none
  | some (rest1, ((icao, timestamp, corrected, auto, wind), (obsc, temp, press))) =>
      match nom_metar_trailing rest1 with
      | none => none
      | some (rest, (recent, ssi, nato, nosig, becoming, tempo, remark)) =>
          some (rest,
            { raw := String.mk input, icao := String.mk icao,
              timestamp := timestamp, corrected := corrected.isSome,
              auto := auto.isSome, wind := wind, obscuration := obsc,
              temprature := temp, pressure := press, recent_weather := recent,
              nosig := nosig.isSome, sea_surface_indicator := ssi,
              tempo := tempo, becoming := becoming, nato_mil_code := nato,
              remarks := remark.map String.mk })

/-- Line decoding, `Metar::from_str` in `metar.rs`: a nom failure or a
non-empty unconsumed remainder is an error; the remainder-case error
carries that remainder (the parse-failure error carries nom's error input,
which this embedding does not track further). -/
def metar_from_str (s : List Char) : Except (List Char) Metar :=
  match nom_parse_metar s with
  | none => Except.error s
  | some (rest, metar) =>
      if rest.isEmpty then Except.ok metar else Except.error rest

end ENOR

namespace ENOR

/-- C6: the runway-usage merge is commutative and idempotent; `Both` absorbs
anything, `Arriving` merged with `Departing` (in either order) is `Both`,
and merging two equal usages is a no-op. -/
theorem runway_use_merge_comm_idem (a b : RunwayUse) :
    a.merged_with b = b.merged_with a ∧
    a.merged_with a = a ∧
    RunwayUse.Both.merged_with a = RunwayUse.Both ∧
    a.merged_with RunwayUse.Both = RunwayUse.Both ∧
    RunwayUse.Arriving.merged_with RunwayUse.Departing = RunwayUse.Both ∧
    RunwayUse.Departing.merged_with RunwayUse.Arriving = RunwayUse.Both := by
  revert a b; decide

/-- The headwind projection factor is always in `[-1, 1]`: every branch of
the computation is either a literal `1`, a cosine, or a maximum of two
cosines. -/
theorem headwind_factor_abs_le_one (track : ℕ) (wind : Wind) :
    |headwind_factor track wind| ≤ 1 := by
  unfold headwind_factor
  have hcos : ∀ x : ℝ, |Real.cos x| ≤ 1 := fun x => Real.abs_cos_le_one x
  split
  · dsimp only
    split
    · norm_num
    · rw [abs_le]
      constructor
      · exact le_max_of_le_left (Real.neg_one_le_cos _)
      · exact max_le (Real.cos_le_one _) (Real.cos_le_one _)
  · split
    · split
      · exact hcos _
      · norm_num
    · norm_num

/-- C9: whenever the wind speed is resolvable, the magnitude of
`calculate_max_headwind_from_wind` is bounded by the reported
(gust-inclusive) wind speed, for fixed headings, fully variable winds and
variable-direction arcs alike. -/
theorem max_headwind_le_reported_speed (runway : RunwayDirection) (wind : Wind)
    (s : ℕ) (v : ℤ) (hs : wind.speed.get_max_wind_speed = some s)
    (hv : calculate_max_headwind_from_wind runway wind = some v) :
    |v| ≤ (s : ℤ) := by
  unfold calculate_max_headwind_from_wind scale_wind_speed at hv
  rw [hs] at hv
  simp at hv
  subst hv
  have hF := headwind_factor_abs_le_one runway.degrees wind
  rw [abs_le] at hF
  rw [abs_le]
  constructor
  · have hx : -((s : ℝ)) ≤ (s : ℝ) * headwind_factor runway.degrees wind := by
      nlinarith [Nat.cast_nonneg (α := ℝ) s]
    have := le_trans hx (Int.le_ceil ((s : ℝ) * headwind_factor runway.degrees wind))
    exact_mod_cast this
  · apply Int.ceil_le.mpr
    push_cast
    nlinarith [Nat.cast_nonneg (α := ℝ) s]

/-- Witness for C9 at a concrete fully-variable 8-knot wind. -/
theorem max_headwind_le_reported_speed_witness :
    calculate_max_headwind_from_wind ⟨80, "08"⟩
      ⟨.Variable, ⟨.Data 8, none, .Knots⟩, none⟩ = some 8 ∧
    |(8 : ℤ)| ≤ ((8 : ℕ) : ℤ) := by
  have h : calculate_max_headwind_from_wind ⟨80, "08"⟩
      ⟨.Variable, ⟨.Data 8, none, .Knots⟩, none⟩ = some 8 := by
    unfold calculate_max_headwind_from_wind scale_wind_speed headwind_factor
      WindVelocity.get_max_wind_speed
    norm_num
  exact ⟨h, max_headwind_le_reported_speed ⟨80, "08"⟩
    ⟨.Variable, ⟨.Data 8, none, .Knots⟩, none⟩ 8 8 rfl h⟩

/-- Evaluation: a steady wind aligned with the runway heading projects with
factor `cos 0 = 1`. -/
theorem calc_headwind_08 :
    calculate_max_headwind_from_wind ⟨80, "08"⟩ wind080_8 = some 8 := by
  unfold calculate_max_headwind_from_wind headwind_factor wind080_8
    scale_wind_speed WindVelocity.get_max_wind_speed
  dsimp only
  have hd : diff_angle 80 80 = 0 := by simp [diff_angle]
  rw [hd]
  have h0 : deg2rad ((0 : ℕ) : ℝ) = 0 := by simp [deg2rad]
  rw [h0, Real.cos_zero]
  norm_num

/-- Evaluation: a steady wind opposite to the runway heading projects with
factor `cos π = -1`. -/
theorem calc_headwind_26 :
    calculate_max_headwind_from_wind ⟨260, "26"⟩ wind080_8 = some (-8) := by
  unfold calculate_max_headwind_from_wind headwind_factor wind080_8
    scale_wind_speed WindVelocity.get_max_wind_speed
  dsimp only
  have hd : diff_angle 260 80 = 180 := by simp [diff_angle]
  rw [hd]
  have hpi : deg2rad ((180 : ℕ) : ℝ) = Real.pi := by
    unfold deg2rad
    push_cast
    field_simp
  rw [hpi, Real.cos_pi]
  norm_num
  rw [show ((-8 : ℝ)) = ((-8 : ℤ) : ℝ) by norm_num, Int.ceil_intCast]

/-- Evaluation of the ENHV fixture headwind on runway 08. -/
theorem enhv_headwind_08 : enhv_airport.runway_max_headwind ⟨80, "08"⟩ = some 8 := by
  unfold Airport.runway_max_headwind enhv_airport
  simp only [Option.some_bind]
  simp only [fixture_metar]
  exact calc_headwind_08

/-- Evaluation of the ENHV fixture headwind on runway 26. -/
theorem enhv_headwind_26 : enhv_airport.runway_max_headwind ⟨260, "26"⟩ = some (-8) := by
  unfold Airport.runway_max_headwind enhv_airport
  simp only [Option.some_bind]
  simp only [fixture_metar]
  exact calc_headwind_26

/-- C4: for a single-pair airport with both headwinds computable, the
generic policy selects the strictly larger-headwind direction as `Both`
when the two values differ by more than 2, and makes no selection
otherwise. -/
theorem general_policy_two_headwinds (ap : Airport) (d1 d2 : RunwayDirection)
    (w1 w2 : ℤ) (hpair : ap.runways = [⟨d1, d2⟩])
    (hne : d1.identifier ≠ d2.identifier)
    (h1 : ap.runway_max_headwind d1 = some w1)
    (h2 : ap.runway_max_headwind d2 = some w2) :
    (w1 - w2 > 2 →
      internal_set_runway_based_on_metar_wind ap 0 =
        some [(d1.identifier, RunwayUse.Both)]) ∧
    (w2 - w1 > 2 →
      internal_set_runway_based_on_metar_wind ap 0 =
        some [(d2.identifier, RunwayUse.Both)]) ∧
    (|w1 - w2| ≤ 2 → internal_set_runway_based_on_metar_wind ap 0 = none) := by
  have hgd : ap.runways.getD 0 default_runway = ⟨d1, d2⟩ := by rw [hpair]; rfl
  have hhw : (Runway.dirs ⟨d1, d2⟩).foldl
      (fun acc dir => indexInsert acc dir.identifier (ap.runway_max_headwind dir)) [] =
      [(d1.identifier, some w1), (d2.identifier, some w2)] := by
    simp [Runway.dirs, indexInsert, h1, h2, hne]
  have hbody : internal_set_runway_based_on_metar_wind ap 0 =
      (if ([w1, w2] : List ℤ).isEmpty then none
       else
        match ([w1, w2] : List ℤ).min?, ([w1, w2] : List ℤ).max? with
        | some mn, some mx =>
            if mx - mn > 2 then
              match ([(d1.identifier, some w1), (d2.identifier, some w2)]
                  : List (String × Option ℤ)).find? (fun p => p.2 = some mx) with
              | some (ident, _) => some [(ident, RunwayUse.Both)]
              | none => none
            else none
        | _, _ => none) := by
    unfold internal_set_runway_based_on_metar_wind
    rw [hgd, hhw]
    simp [List.filterMap]
  refine ⟨fun hgt => ?_, fun hgt => ?_, fun hle => ?_⟩
  · rw [hbody]
    have hmin : ([w1, w2] : List ℤ).min? = some w2 := by
      simp [List.min?, min_eq_right (by omega : w2 ≤ w1)]
    have hmax : ([w1, w2] : List ℤ).max? = some w1 := by
      simp [List.max?, max_eq_left (by omega : w2 ≤ w1)]
    rw [hmin, hmax]
    simp only [List.isEmpty, if_neg]
    rw [if_pos (by omega : w1 - w2 > 2)]
    simp [List.find?]
  · rw [hbody]
    have hmin : ([w1, w2] : List ℤ).min? = some w1 := by
      simp [List.min?, min_eq_left (by omega : w1 ≤ w2)]
    have hmax : ([w1, w2] : List ℤ).max? = some w2 := by
      simp [List.max?, max_eq_right (by omega : w1 ≤ w2)]
    rw [hmin, hmax]
    simp only [List.isEmpty, if_neg]
    rw [if_pos (by omega : w2 - w1 > 2)]
    have hne12 : w1 ≠ w2 := by omega
    simp [List.find?, hne12]
  · rw [hbody]
    rw [abs_le] at hle
    rcases le_total w1 w2 with hc | hc
    · have hmin : ([w1, w2] : List ℤ).min? = some w1 := by
        simp [List.min?, min_eq_left hc]
      have hmax : ([w1, w2] : List ℤ).max? = some w2 := by
        simp [List.max?, max_eq_right hc]
      rw [hmin, hmax]
      simp only [List.isEmpty]
      rw [if_neg (by omega : ¬(w2 - w1 > 2))]
      simp
    · have hmin : ([w1, w2] : List ℤ).min? = some w2 := by
        simp [List.min?, min_eq_right hc]
      have hmax : ([w1, w2] : List ℤ).max? = some w1 := by
        simp [List.max?, max_eq_left hc]
      rw [hmin, hmax]
      simp only [List.isEmpty]
      rw [if_neg (by omega : ¬(w1 - w2 > 2))]
      simp

/-- Witness for C4 on the ENHV fixture: headwinds 8 and -8 differ by more
than 2, so runway 08 is selected as `Both`. -/
theorem general_policy_two_headwinds_witness :
    enhv_airport.runway_max_headwind ⟨80, "08"⟩ = some 8 ∧
    enhv_airport.runway_max_headwind ⟨260, "26"⟩ = some (-8) ∧
    internal_set_runway_based_on_metar_wind enhv_airport 0 =
      some [("08", RunwayUse.Both)] :=
  ⟨enhv_headwind_08, enhv_headwind_26,
    (general_policy_two_headwinds enhv_airport ⟨80, "08"⟩ ⟨260, "26"⟩ 8 (-8)
      rfl (by decide) enhv_headwind_08 enhv_headwind_26).1 (by norm_num)⟩

/-- Direct evaluation of the generic policy on the ENHV fixture. -/
theorem internal_set_enhv_eval :
    internal_set_runway_based_on_metar_wind enhv_airport 0 =
      some [("08", RunwayUse.Both)] := by
  have hhw : (Runway.dirs ⟨⟨80, "08"⟩, ⟨260, "26"⟩⟩).foldl
      (fun acc dir =>
        indexInsert acc dir.identifier (enhv_airport.runway_max_headwind dir)) [] =
      [("08", some 8), ("26", some (-8))] := by
    simp [Runway.dirs, indexInsert, enhv_headwind_08, enhv_headwind_26]
  unfold internal_set_runway_based_on_metar_wind
  rw [show enhv_airport.runways.getD 0 default_runway = ⟨⟨80, "08"⟩, ⟨260, "26"⟩⟩
    from rfl, hhw]
  decide

/-- The association list built by the generic policy only holds the two
identifiers of the selected runway pair as keys. -/
theorem internal_headwinds_keys (ap : Airport) (runway_index : ℕ) (p : String × Option ℤ)
    (hp : p ∈ (Runway.dirs (ap.runways.getD runway_index default_runway)).foldl
      (fun acc dir => indexInsert acc dir.identifier (ap.runway_max_headwind dir)) []) :
    p.1 = (ap.runways.getD runway_index default_runway).dir0.identifier ∨
    p.1 = (ap.runways.getD runway_index default_runway).dir1.identifier := by
  set pair := ap.runways.getD runway_index default_runway with hpair
  by_cases hid : pair.dir0.identifier = pair.dir1.identifier
  · simp only [Runway.dirs, List.foldl, indexInsert] at hp
    simp [hid] at hp
    simp [hp]
  · simp only [Runway.dirs, List.foldl, indexInsert] at hp
    simp [hid] at hp
    rcases hp with hp | hp <;> simp [hp]

/-- C10: whenever the generic wind-based selection returns a selection for
a runway pair, it is a singleton map assigning `Both` to the identifier of
one of that pair's two directions. -/
theorem wind_selection_singleton_both (ap : Airport) (runway_index : ℕ)
    (m : List (String × RunwayUse))
    (h : internal_set_runway_based_on_metar_wind ap runway_index = some m) :
    ∃ ident,
      (ident = (ap.runways.getD runway_index default_runway).dir0.identifier ∨
       ident = (ap.runways.getD runway_index default_runway).dir1.identifier) ∧
      m = [(ident, RunwayUse.Both)] := by
  unfold internal_set_runway_based_on_metar_wind at h
  dsimp only at h
  split at h
  · exact absurd h (by simp)
  · split at h
    · split at h
      · split at h
        · next ident _ heq =>
          refine ⟨ident, ?_, by
            simpa using h.symm⟩
          have hmem := List.mem_of_find?_eq_some heq
          exact internal_headwinds_keys ap runway_index _ hmem
        · exact absurd h (by simp)
      · exact absurd h (by simp)
    · exact absurd h (by simp)

/-- Witness for C10: the ENHV fixture's computed selection. -/
theorem wind_selection_singleton_both_witness :
    internal_set_runway_based_on_metar_wind enhv_airport 0 =
      some [("08", RunwayUse.Both)] ∧
    ∃ ident,
      (ident = (enhv_airport.runways.getD 0 default_runway).dir0.identifier ∨
       ident = (enhv_airport.runways.getD 0 default_runway).dir1.identifier) ∧
      [(("08" : String), RunwayUse.Both)] = [(ident, RunwayUse.Both)] :=
  ⟨internal_set_enhv_eval,
   wind_selection_singleton_both enhv_airport 0 _ internal_set_enhv_eval⟩

/-- C3 (code bug): for a two-pair ENZV, the policy's `secondary` index
`main_runway_index & 1` equals the main index, so the crosswind comparison
is against the main pair itself and every non-panicking run returns the
main-pair pick as `Both` — the alternate-pair switch is dead code. -/
theorem enzv_selects_main_pair_only (ap : Airport)
    (res : Except ApplicationError (List (String × RunwayUse)))
    (hlen : ap.runways.length = 2)
    (h : set_runway_for_enzv ap = some res) :
    ∃ i main,
      ap.runways.findIdx?
        (fun runway => runway.dirs.any (fun dir => dir.identifier = "18")) = some i ∧
      (match internal_set_runway_based_on_metar_wind ap i with
       | some rwy => rwy.head?.map Prod.fst
       | none => some "18") = some main ∧
      res = Except.ok [(main, RunwayUse.Both)] := by
  unfold set_runway_for_enzv at h
  cases hidx : ap.runways.findIdx?
      (fun runway => runway.dirs.any (fun dir => dir.identifier = "18")) with
  | none => rw [hidx] at h; simp at h
  | some i =>
    rw [hidx] at h
    have hi2 : i < 2 := by
      have := (List.findIdx?_eq_some_iff_findIdx_eq.mp hidx).1
      omega
    simp only [Option.bind_eq_bind, Option.some_bind] at h
    have hand : i &&& 1 = i := by interval_cases i <;> rfl
    rw [hand] at h
    cases hmain : internal_set_runway_based_on_metar_wind ap i with
    | some rwy =>
      rw [hmain] at h
      cases hhead : rwy.head? with
      | none => simp [hhead] at h
      | some p =>
        simp only [hhead, Option.map_some', Option.bind_eq_bind, Option.some_bind] at h
        refine ⟨i, p.1, rfl, by simp [hmain, hhead], ?_⟩
        cases hfind : (ap.runways.getD i default_runway).dirs.find?
            (fun dir => dir.identifier = p.1) with
        | none => rw [hfind] at h; simp at h
        | some mrd =>
          rw [hfind] at h
          simp only [Option.bind_eq_bind, Option.some_bind] at h
          cases hcw : ap.runway_max_crosswind mrd with
          | none => rw [hcw] at h; simp at h; exact h.symm
          | some cw =>
            rw [hcw] at h
            obtain ⟨cwv, cwd⟩ := cw
            dsimp only at h
            by_cases hlt : cwv < 15
            · rw [if_pos hlt] at h
              simp at h; exact h.symm
            · rw [if_neg hlt] at h
              cases hsec : ap.runway_max_crosswind
                  ((ap.runways.getD i default_runway).dirs.headD ⟨0, ""⟩) with
              | none => rw [hsec] at h; simp at h
              | some sec =>
                rw [hsec] at h
                simp at h
                exact h.symm
    | none =>
      rw [hmain] at h
      simp only [Option.bind_eq_bind, Option.some_bind] at h
      refine ⟨i, "18", rfl, by simp [hmain], ?_⟩
      cases hfind : (ap.runways.getD i default_runway).dirs.find?
          (fun dir => dir.identifier = "18") with
      | none => rw [hfind] at h; simp at h
      | some mrd =>
        rw [hfind] at h
        simp only [Option.bind_eq_bind, Option.some_bind] at h
        cases hcw : ap.runway_max_crosswind mrd with
        | none => rw [hcw] at h; simp at h; exact h.symm
        | some cw =>
          rw [hcw] at h
          obtain ⟨cwv, cwd⟩ := cw
          dsimp only at h
          by_cases hlt : cwv < 15
          · rw [if_pos hlt] at h
            simp at h; exact h.symm
          · rw [if_neg hlt] at h
            cases hsec : ap.runway_max_crosswind
                ((ap.runways.getD i default_runway).dirs.headD ⟨0, ""⟩) with
            | none => rw [hsec] at h; simp at h
            | some sec =>
              rw [hsec] at h
              simp [hmain] at h
              exact h.symm

/-- C7 (amended): whenever the three middle group parsers succeed applied
sequentially in the canonical order, nom's permutation accepts the input
and decodes to exactly the canonical values (each round of the greedy
permutation loop picks the sky-state parser first, then temperature, then
pressure). -/
theorem permutation_follows_canonical (i r : List Char)
    (v : Obscuration × TempratureInfo × Pressure)
    (h : metar_middle_canonical i = some (r, v)) :
    metar_middle_permutation i = some (r, v) := by
  unfold metar_middle_canonical bindP mapP at h
  unfold metar_middle_permutation perm3
  cases ho : p_obscuration_group i with
  | none => rw [ho] at h; simp at h
  | some po =>
    rw [ho] at h
    obtain ⟨i1, o⟩ := po
    dsimp only at h ⊢
    cases ht : p_temprature_group i1 with
    | none => rw [ht] at h; simp at h
    | some pt =>
      rw [ht] at h
      obtain ⟨i2, t⟩ := pt
      dsimp only at h ⊢
      cases hp : p_pressure_group i2 with
      | none => rw [hp] at h; simp at h
      | some pp =>
        rw [hp] at h
        obtain ⟨i3, p⟩ := pp
        exact h

/-- Witness for C7's amended theorem on a canonical middle section. -/
theorem permutation_follows_canonical_witness :
    metar_middle_canonical (" 9999 12/10 Q1013".data) =
      some ([], (Obscuration.Described
          ⟨⟨VisibilityUnit.Meters (.Data 9999), false⟩, [], [], [], none⟩,
        ⟨.Data 12, .Data 10⟩,
        ⟨some ⟨.Data 1013, .Hectopascals⟩, none⟩)) ∧
    metar_middle_permutation (" 9999 12/10 Q1013".data) =
      some ([], (Obscuration.Described
          ⟨⟨VisibilityUnit.Meters (.Data 9999), false⟩, [], [], [], none⟩,
        ⟨.Data 12, .Data 10⟩,
        ⟨some ⟨.Data 1013, .Hectopascals⟩, none⟩)) := by
  have h : metar_middle_canonical (" 9999 12/10 Q1013".data) =
      some ([], (Obscuration.Described
          ⟨⟨VisibilityUnit.Meters (.Data 9999), false⟩, [], [], [], none⟩,
        ⟨.Data 12, .Data 10⟩,
        ⟨some ⟨.Data 1013, .Hectopascals⟩, none⟩)) := by decide
  exact ⟨h, permutation_follows_canonical _ _ _ h⟩

/-- C7 (counterexample): each middle group individually parses on its span
of the temperature-first arrangement, and the canonical arrangement
decodes, yet the decoder rejects the temperature-first arrangement — the
permutation does not accept every relative order. -/
theorem metar_middle_order_counterexample :
    (p_obscuration_group " ////".data).isSome = true ∧
    (p_temprature_group " /////".data).isSome = true ∧
    (p_pressure_group " Q////".data).isSome = true ∧
    (metar_from_str "AAAA 010000Z 00000KT //// ///// Q////".data).isOk = true ∧
    (metar_from_str "AAAA 010000Z 00000KT ///// //// Q////".data).isOk = false := by
  exact ⟨by decide, by decide, by decide, by decide, by decide⟩

/-- An optional parser always succeeds. -/
theorem optP_total {α : Type} (q : P α) (i : List Char) :
    ∃ r v, optP q i = some (r, v) := by
  unfold optP
  cases hq : q i with
  | none => exact ⟨i, none, rfl⟩
  | some p =>
    obtain ⟨r, a⟩ := p
    exact ⟨r, some a, rfl⟩

/-- A space-prefixed optional parser always succeeds. -/
theorem preceded_space0_opt_total {α : Type} (q : P α) (i : List Char) :
    ∃ r v, precededP space0P (optP q) i = some (r, v) := by
  unfold precededP bindP space0P
  exact optP_total q _

/-- The trailing chain of the decoder never fails: all its groups are
optional. -/
theorem nom_metar_trailing_total (i : List Char) :
    ∃ r v, nom_metar_trailing i = some (r, v) := by
  unfold nom_metar_trailing
  obtain ⟨r1, v1, h1⟩ := preceded_space0_opt_total nom_recent_present_weather i
  obtain ⟨r2, v2, h2⟩ := preceded_space0_opt_total nom_sea_surface_indicator r1
  obtain ⟨r3, v3, h3⟩ :=
    optP_total (precededP space0P (optional_fieldP 3 nom_nato_mil_code)) r2
  obtain ⟨r4, v4, h4⟩ := optP_total (precededP space0P (tagP "NOSIG")) r3
  obtain ⟨r5, v5, h5⟩ :=
    optP_total (precededP (bindP space0P fun _ => tagP "BECMG") nom_becoming) r4
  obtain ⟨r6, v6, h6⟩ :=
    optP_total (precededP (bindP space0P fun _ => tagP "TEMPO") nom_becoming) r5
  obtain ⟨r7, v7, h7⟩ :=
    optP_total (precededP (bindP space0P fun _ => tagP "RMK ")
      (mapResP restP (fun s => if s.isEmpty then none else some s))) r6
  refine ⟨r7, (v1, v2, v3, v4, v5, v6, v7), ?_⟩
  simp only [bindP, mapP, h1, h2, h3, h4, h5, h6, h7]

/-- The whole-line parser fails exactly when its mandatory section fails:
the trailing chain is total. -/
theorem nom_parse_none_iff (s : List Char) :
    nom_parse_metar s = none ↔ nom_metar_mandatory s = none := by
  unfold nom_parse_metar
  cases hm : nom_metar_mandatory s with
  | none => simp
  | some p =>
    obtain ⟨r1, ⟨⟨icao, ts, cor, au, w⟩, ⟨o, t, pr⟩⟩⟩ := p
    dsimp only
    obtain ⟨rt, vt, ht⟩ := nom_metar_trailing_total r1
    rw [ht]
    obtain ⟨a, b, c, d, e, f, g⟩ := vt
    simp

/-- C8 (amended): line decoding returns an error exactly when the
mandatory section (leading station/timestamp/wind groups or the permuted
sky-state/temperature/pressure section) fails to match, or non-empty
unconsumed text remains after the trailing optional groups and the remark;
in the latter case the error carries exactly that remainder. -/
theorem decode_error_characterization (s : List Char) :
    ((metar_from_str s).isOk = false ↔
      (nom_metar_mandatory s = none ∨
        ∃ r m, nom_parse_metar s = some (r, m) ∧ r ≠ [])) ∧
    (∀ r m, nom_parse_metar s = some (r, m) → r ≠ [] →
      metar_from_str s = Except.error r) := by
  constructor
  · constructor
    · intro h
      cases hp : nom_parse_metar s with
      | none => exact Or.inl ((nom_parse_none_iff s).mp hp)
      | some p =>
        obtain ⟨r, m⟩ := p
        refine Or.inr ⟨r, m, rfl, ?_⟩
        intro hr
        unfold metar_from_str at h
        rw [hp] at h
        simp [hr, Except.isOk, Except.toBool] at h
    · intro h
      rcases h with h | ⟨r, m, hp, hr⟩
      · unfold metar_from_str
        rw [(nom_parse_none_iff s).mpr h]
        rfl
      · unfold metar_from_str
        rw [hp]
        dsimp only
        rw [if_neg (by simpa [List.isEmpty_iff] using hr)]
        rfl
  · intro r m hp hr
    unfold metar_from_str
    rw [hp]
    dsimp only
    rw [if_neg (by simpa [List.isEmpty_iff] using hr)]

/-- Witness for C8's amended theorem: the empty line fails its mandatory
section, and decoding errors. -/
theorem decode_error_characterization_witness :
    nom_metar_mandatory ([] : List Char) = none ∧
    (metar_from_str ([] : List Char)).isOk = false := by
  have h : nom_metar_mandatory ([] : List Char) = none := by rfl
  exact ⟨h, (decode_error_characterization []).1.mpr (Or.inl h)⟩

/-- C8 (counterexample): the leading station/timestamp/wind groups match
the whole of `"AAAA 010000Z 00000KT"` with empty remainder, yet decoding
errors — the permuted sky-state/temperature/pressure section is mandatory
too, which the claim's error condition omits. -/
theorem decode_mandatory_permutation_counterexample :
    (nom_metar_leading "AAAA 010000Z 00000KT".data).map (fun p => p.1) =
      some [] ∧
    (metar_from_str "AAAA 010000Z 00000KT".data).isOk = false := by
  exact ⟨by decide, by decide⟩

/-- C5 (amended): the ENGM daytime ceiling condition holds exactly when
some reported layer with broken or overcast coverage (undefined coverage
counting) has encoded height below 15, i.e. below 1500 ft (undefined
height counting). -/
theorem ceiling_for_lvp_iff (clouds : List Cloud) :
    ceiling_for_lvp clouds = true ↔
      ∃ d : CloudData, Cloud.CloudData d ∈ clouds ∧
        (d.coverage = .Undefined ∨ d.coverage = .Data .Broken ∨
          d.coverage = .Data .Overcast) ∧
        (d.height = .Undefined ∨ ∃ ht, d.height = .Data ht ∧ ht.height < 15) := by
  unfold ceiling_for_lvp
  rw [List.any_eq_true]
  constructor
  · rintro ⟨d, hd, hhei⟩
    rw [List.mem_filter] at hd
    obtain ⟨hd, hcov⟩ := hd
    rw [List.mem_filterMap] at hd
    obtain ⟨c, hc, hmatch⟩ := hd
    cases c with
    | CloudData d2 =>
        simp only [Option.some.injEq] at hmatch
        subst hmatch
        refine ⟨d2, hc, ?_, ?_⟩
        · cases hcase : d2.coverage with
          | Undefined => left; rfl
          | Data cov =>
              rw [hcase] at hcov
              simp only [decide_eq_true_eq] at hcov
              rcases hcov with hcov | hcov
              · right; left; rw [hcov]
              · right; right; rw [hcov]
        · cases hcase : d2.height with
          | Undefined => left; rfl
          | Data ht =>
              rw [hcase] at hhei
              simp only [decide_eq_true_eq] at hhei
              exact Or.inr ⟨ht, rfl, hhei⟩
    | NCD => simp at hmatch
    | NSC => simp at hmatch
    | CLR => simp at hmatch
  · rintro ⟨d, hd, hcov, hhei⟩
    refine ⟨d, ?_, ?_⟩
    · rw [List.mem_filter]
      constructor
      · rw [List.mem_filterMap]
        exact ⟨Cloud.CloudData d, hd, rfl⟩
      · rcases hcov with hcov | hcov | hcov <;> rw [hcov] <;> simp
    · rcases hhei with hhei | ⟨ht, hht, hlt⟩
      · rw [hhei]
      · rw [hht]
        simpa using hlt

/-- C5 (counterexample): a single broken layer at 1000 ft meets the code's
ceiling condition (its threshold is 1500 ft) but not the claimed 500 ft
condition. -/
theorem ceiling_threshold_counterexample :
    ceiling_for_lvp bkn010 = true ∧ spec_ceiling_below_500ft bkn010 = false := by
  decide

/-- C1 (amended): for every airport, the report's effective selection is
the first present source in precedence order ATIS > METAR > Default
(whatever the presence pattern, including no source at all), while the
runway-file writer emits the `ACTIVE_RUNWAY` lines of every present
source, so lower-precedence entries appear in the file whenever their
source is present. -/
theorem selection_precedence_report_vs_file (ap : Airport) :
    (∀ a, indexGet ap.runways_in_use RunwayInUseSource.Atis = some a →
      preferred_selection ap = some (RunwayInUseSource.Atis, a)) ∧
    (indexGet ap.runways_in_use RunwayInUseSource.Atis = none →
      ∀ m, indexGet ap.runways_in_use RunwayInUseSource.Metar = some m →
        preferred_selection ap = some (RunwayInUseSource.Metar, m)) ∧
    (indexGet ap.runways_in_use RunwayInUseSource.Atis = none →
      indexGet ap.runways_in_use RunwayInUseSource.Metar = none →
      ∀ d, indexGet ap.runways_in_use RunwayInUseSource.Default = some d →
        preferred_selection ap = some (RunwayInUseSource.Default, d)) ∧
    (indexGet ap.runways_in_use RunwayInUseSource.Atis = none →
      indexGet ap.runways_in_use RunwayInUseSource.Metar = none →
      indexGet ap.runways_in_use RunwayInUseSource.Default = none →
        preferred_selection ap = none) ∧
    (∀ src sel, indexGet ap.runways_in_use src = some sel →
      ap.runways ≠ [] →
      ∀ line ∈ active_runway_lines ap.icao sel, line ∈ write_runway_lines ap) := by
  refine ⟨?_, ?_, ?_, ?_, ?_⟩
  · intro a hA
    unfold preferred_selection RunwayInUseSource.default_sort_order
    simp [List.findSome?, hA]
  · intro hA m hM
    unfold preferred_selection RunwayInUseSource.default_sort_order
    simp [List.findSome?, hA, hM]
  · intro hA hM d hD
    unfold preferred_selection RunwayInUseSource.default_sort_order
    simp [List.findSome?, hA, hM, hD]
  · intro hA hM hD
    unfold preferred_selection RunwayInUseSource.default_sort_order
    simp [List.findSome?, hA, hM, hD]
  · intro src sel hsel hr line hline
    unfold write_runway_lines
    rw [if_neg (by simpa using hr)]
    rw [List.mem_flatMap]
    refine ⟨src, ?_, ?_⟩
    · cases src <;> simp [RunwayInUseSource.default_sort_order]
    · rw [hsel]
      exact hline

/-- Witness for C1's amended theorem on the three-source fixture: the
report picks the ATIS map, and a METAR-sourced line is in the file. -/
theorem selection_precedence_report_vs_file_witness :
    preferred_selection report_airport =
      some (RunwayInUseSource.Atis, [("01", RunwayUse.Both)]) ∧
    "ACTIVE_RUNWAY:ENXX:19:1" ∈ write_runway_lines report_airport := by
  have t := selection_precedence_report_vs_file report_airport
  refine ⟨t.1 _ rfl, ?_⟩
  exact t.2.2.2.2 RunwayInUseSource.Metar [("19", RunwayUse.Both)] rfl
    (by decide) "ACTIVE_RUNWAY:ENXX:19:1" (by decide)

/-- C1 (counterexample): with both an ATIS and a METAR selection present,
the written runway file contains the lower-precedence METAR entry's line
even though the ATIS source is present. -/
theorem runway_file_contains_lower_precedence :
    indexGet report_airport.runways_in_use RunwayInUseSource.Atis =
      some [("01", RunwayUse.Both)] ∧
    "ACTIVE_RUNWAY:ENXX:19:1" ∈ write_runway_lines report_airport := by
  constructor
  · rfl
  · decide

/-- Tail of the ENGM policy: how the produced map depends on the mode. -/
theorem engm_tail (source : RunwayInUseSource) (rd : String) (t : ℕ) (W : Bool)
    (res : RunwayInUseSource × List (String × RunwayUse))
    (h : (match engm_mode t W with
          | .Mixed => some (source, [(rd ++ "L", RunwayUse.Both),
                                     (rd ++ "R", RunwayUse.Both)])
          | .Segregated => some (source, [(rd ++ "L", RunwayUse.Departing),
                                          (rd ++ "R", RunwayUse.Arriving)])
          | .Single =>
              if rd = "01" then some (source, [("01L", RunwayUse.Both)])
              else if rd = "19" then some (source, [("19R", RunwayUse.Both)])
              else none) = some res) :
    (t < 6 * 3600 + 30 * 60 →
      res.2 = [("01L", RunwayUse.Both)] ∨ res.2 = [("19R", RunwayUse.Both)]) ∧
    (22 * 3600 + 30 * 60 ≤ t →
      ∃ r, res.2 = [(r ++ "L", RunwayUse.Departing),
                    (r ++ "R", RunwayUse.Arriving)]) ∧
    (6 * 3600 + 30 * 60 ≤ t → t < 22 * 3600 + 30 * 60 →
      (W = true →
        ∃ r, res.2 = [(r ++ "L", RunwayUse.Departing),
                      (r ++ "R", RunwayUse.Arriving)]) ∧
      (W = false →
        ∃ r, res.2 = [(r ++ "L", RunwayUse.Both),
                      (r ++ "R", RunwayUse.Both)])) := by
  refine ⟨?_, ?_, ?_⟩
  · intro ht
    have hm : engm_mode t W = .Single := by
      unfold engm_mode
      rw [if_neg (by omega), if_pos (by omega)]
    rw [hm] at h
    by_cases h01 : rd = "01"
    · rw [if_pos h01] at h
      cases h
      left; rfl
    · rw [if_neg h01] at h
      by_cases h19 : rd = "19"
      · rw [if_pos h19] at h
        cases h
        right; rfl
      · rw [if_neg h19] at h
        cases h
  · intro ht
    have hm : engm_mode t W = .Segregated := by
      unfold engm_mode
      rw [if_pos (by omega)]
    rw [hm] at h
    cases h
    exact ⟨rd, rfl⟩
  · intro ht1 ht2
    have hm : engm_mode t W = (if W then .Segregated else .Mixed) := by
      unfold engm_mode
      rw [if_neg (by omega), if_neg (by omega)]
    constructor
    · intro hw
      subst hw
      simp only [if_true] at hm
      rw [hm] at h
      cases h
      exact ⟨rd, rfl⟩
    · intro hw
      subst hw
      simp only [Bool.false_eq_true, if_false] at hm
      rw [hm] at h
      cases h
      exact ⟨rd, rfl⟩

/-- C2 (amended): the ENGM policy selects Single mode exactly for local
times before 06:30 — in which case the assignment is the canonical single
runway (01L or 19R) as `Both` — while at or after 22:30 it selects
Segregated, producing a departing-L/arriving-R split; in between, the
weather minima decide between Segregated and Mixed (both-`Both`)
assignments. -/
theorem engm_time_windows (ap : Airport) (config : ESConfig) (t : ℕ)
    (res : RunwayInUseSource × List (String × RunwayUse))
    (h : set_runway_for_engm ap config t = some res) :
    (t < 6 * 3600 + 30 * 60 →
      res.2 = [("01L", RunwayUse.Both)] ∨ res.2 = [("19R", RunwayUse.Both)]) ∧
    (22 * 3600 + 30 * 60 ≤ t →
      ∃ r, res.2 = [(r ++ "L", RunwayUse.Departing),
                    (r ++ "R", RunwayUse.Arriving)]) ∧
    (6 * 3600 + 30 * 60 ≤ t → t < 22 * 3600 + 30 * 60 →
      (engm_weather_minima ap.metar = true →
        ∃ r, res.2 = [(r ++ "L", RunwayUse.Departing),
                      (r ++ "R", RunwayUse.Arriving)]) ∧
      (engm_weather_minima ap.metar = false →
        ∃ r, res.2 = [(r ++ "L", RunwayUse.Both),
                      (r ++ "R", RunwayUse.Both)])) := by
  unfold set_runway_for_engm at h
  cases hsel : internal_set_runway_based_on_metar_wind ap 0 with
  | some map =>
    rw [hsel] at h
    cases hhd : map.head? with
    | none => simp [hhd] at h
    | some p =>
      simp only [hhd, Option.map_some', Option.bind_eq_bind, Option.some_bind] at h
      exact engm_tail _ _ t _ res h
  | none =>
    rw [hsel] at h
    simp only [Option.bind_eq_bind, Option.some_bind] at h
    exact engm_tail _ _ t _ res h

/-- Witness for C2's amended theorem: at 00:16:40 local the ENGM fixture's
selection is the canonical single runway 01L as `Both`. -/
theorem engm_time_windows_witness :
    set_runway_for_engm engm_airport ⟨[]⟩ 1000 =
      some (RunwayInUseSource.Default, [("01L", RunwayUse.Both)]) ∧
    ((RunwayInUseSource.Default,
        [(("01L" : String), RunwayUse.Both)]).2 = [("01L", RunwayUse.Both)] ∨
     (RunwayInUseSource.Default,
        [(("01L" : String), RunwayUse.Both)]).2 = [("19R", RunwayUse.Both)]) := by
  have h : set_runway_for_engm engm_airport ⟨[]⟩ 1000 =
      some (RunwayInUseSource.Default, [("01L", RunwayUse.Both)]) := by rfl
  exact ⟨h, (engm_time_windows engm_airport ⟨[]⟩ 1000 _ h).1 (by norm_num)⟩

/-- C2 (counterexample): at 23:00 local — inside the claim's Single window
[22:30, 06:30) — the ENGM policy produces the Segregated assignment, which
contains an `Arriving` entry and is not a single canonical runway mapped
to `Both`. -/
theorem engm_late_evening_segregated :
    set_runway_for_engm engm_airport ⟨[]⟩ 82800 =
      some (RunwayInUseSource.Default,
        [("01L", RunwayUse.Departing), ("01R", RunwayUse.Arriving)]) ∧
    22 * 3600 + 30 * 60 ≤ 82800 ∧
    ("01R", RunwayUse.Arriving) ∈
      [(("01L" : String), RunwayUse.Departing), ("01R", RunwayUse.Arriving)] := by
  refine ⟨by rfl, by norm_num, by simp⟩

/-- Witness for C3's theorem on the ENZV fixture without observation. -/
theorem enzv_selects_main_pair_only_witness :
    set_runway_for_enzv enzv_airport = some (Except.ok [("18", RunwayUse.Both)]) ∧
    ∃ i main,
      enzv_airport.runways.findIdx?
        (fun runway => runway.dirs.any (fun dir => dir.identifier = "18")) = some i ∧
      (match internal_set_runway_based_on_metar_wind enzv_airport i with
       | some rwy => rwy.head?.map Prod.fst
       | none => some "18") = some main ∧
      Except.ok (ε := ApplicationError) [(main, RunwayUse.Both)] =
        Except.ok [(("18" : String), RunwayUse.Both)] := by
  have h : set_runway_for_enzv enzv_airport =
      some (Except.ok [("18", RunwayUse.Both)]) := by rfl
  obtain ⟨i, main, h1, h2, h3⟩ := enzv_selects_main_pair_only enzv_airport _ rfl h
  exact ⟨h, i, main, h1, h2, by rw [← h3]⟩

end ENOR
